import Mathlib

/-!
Shallow embedding of the tradekit Position Lifecycle & Execution Ledger
(src/models.py, src/broker.py, src/bot.py, src/database.py).

Modelling conventions:
* Python floats (cash, prices, commission, aggressiveness fractions) are
  modelled as exact rationals `ℚ`; Python `int(x)` truncation toward zero is
  `pyInt`.
* Python `datetime` values are abstract timestamps `DTime := ℕ`; every
  function that calls `datetime.now()` receives the current instant as an
  explicit `now` argument.
* Python string enums (`position_type`, `action`, `order_type`, `status`,
  `exit_reason`) are closed inductive types, which makes the source's
  membership checks (`if x not in VALID_...`) vacuously true; the remaining
  validation checks of `TradeKitPosition.__init__` are kept in source order.
* Mutable objects plus exceptions are modelled by explicit state passing:
  a method that can raise returns the state as mutated up to the raise
  together with an error value, mirroring that a Python exception leaves all
  prior field assignments visible.
* The Postgres store (src/database.py) is out of the specified core; it is
  modelled by its observable protocol: `create_position` assigns the next
  surrogate id and logs a `create` call, `update_position` requires a
  non-`None` id (raising otherwise, database.py line 85) and logs an
  `update` call.  (The no-fields-to-update branch of `update_position`
  is unreachable for records built by this core, since `bot_name` is never
  `None`.)
-/

namespace TradeKit

/-- Python `int()` applied to a rational: truncation toward zero. -/
def pyInt (q : ℚ) : ℤ := if 0 ≤ q then ⌊q⌋ else -⌊-q⌋

/-- Modelled timestamp standing for a Python `datetime`. -/
abbrev DTime := ℕ

/-- Models `TradeKitPosition.VALID_STATUSES` (models.py line 7).  The source string
"PARTIAL" is rendered `PARTIAL_FILL` here. -/
inductive Status
  | PENDING | OPEN | PARTIAL_FILL | CLOSED | CANCELED | FAILED
deriving DecidableEq

/-- Models `TradeKitPosition.VALID_ACTIONS` (models.py line 6). -/
inductive ActionT
  | BUY | SELL
deriving DecidableEq

/-- Models `TradeKitPosition.VALID_POSITION_TYPES` (models.py line 5). -/
inductive PosType
  | LONG | SHORT
deriving DecidableEq

/-- Models `TradeKitPosition.VALID_ORDER_TYPES` (models.py line 8). -/
inductive OrderType
  | LIMIT | MARKET
deriving DecidableEq

/-- Models `TradeKitPosition.VALID_EXIT_REASONS` (models.py line 9). -/
inductive ExitReason
  | TECHNICAL | STOP_LOSS | TAKE_PROFIT | MANUAL | TIMEOUT | SIGNAL | OTHER
deriving DecidableEq

/-- The fields of a `TradeKitPosition` object (models.py lines 59-118),
after a successful `__init__`. -/
structure TradeKitPosition where
  id : Option ℕ
  bot_name : String
  ticker : String
  position_type : PosType
  quantity : ℤ
  action : ActionT
  observed_entry_date : DTime
  observed_exit_date : Option DTime
  stop_loss : Option ℚ
  take_profit : Option ℚ
  entry_submit_price : ℚ
  entry_submit_date : DTime
  entry_date : Option DTime
  entry_price : Option ℚ
  exit_submit_date : Option DTime
  exit_submit_price : Option ℚ
  exit_date : Option DTime
  exit_price : Option ℚ
  exit_reason : Option ExitReason
  trigger : Option String
  order_type : OrderType
  status : Status
deriving DecidableEq

/-- Which field the first failing check of `TradeKitPosition.__init__` names
in its `ValueError` message. -/
inductive VErr
  | botName | tickerLen | tickerAlnum | quantity
  | entrySubmitPrice | entryPrice | exitSubmitPrice | exitPrice | trigger
deriving DecidableEq

/-- The check `if price and price <= 0` on an optional price field
(models.py lines 92, 98, 102): Python truthiness means the check fires
exactly for a present, nonzero, non-positive value, i.e. a negative one;
`None` and `0` both skip it. -/
def optPriceBad : Option ℚ → Bool
  | none => false
  | some v => decide (v ≠ 0 ∧ v ≤ 0)

/-- The check `if trigger and not (1 <= len(trigger) <= 50)` (models.py
line 108): the empty string is falsy and skips the check. -/
def triggerBad : Option String → Bool
  | none => false
  | some t => decide (t ≠ "" ∧ ¬ (1 ≤ t.length ∧ t.length ≤ 50))

/-- Models `trigger or None` (models.py line 110): an empty string collapses to
`None`. -/
def orNoneStr : Option String → Option String
  | none => none
  | some t => if t = "" then none else some t

/-- Models `TradeKitPosition.__init__` (models.py lines 11-118): validates each
field in source order, raising `ValueError` on the first violation, and
otherwise assigns the fields.  The membership checks on `position_type`,
`action`, `exit_reason`, `order_type` and `status` are subsumed by the
inductive types.  `observed_entry_date or datetime.now()` and
`entry_submit_date or datetime.now()` become `getD now`. -/

def mkTradeKitPosition (now : DTime) (bot_name ticker : String)
    (position_type : PosType) (quantity : ℤ) (action : ActionT)
    (entry_submit_price : ℚ) (order_type : OrderType) (status : Status)
    (entry_submit_date : Option DTime) (entry_date : Option DTime)
    (entry_price : Option ℚ) (exit_submit_date : Option DTime)
    (exit_submit_price : Option ℚ) (exit_date : Option DTime)
    (exit_price : Option ℚ) (exit_reason : Option ExitReason)
    (trigger : Option String) (stop_loss : Option ℚ) (take_profit : Option ℚ)
    (id : Option ℕ) (observed_entry_date : Option DTime)
    (observed_exit_date : Option DTime) :
    Except VErr TradeKitPosition :=
  if ¬ (1 ≤ bot_name.length ∧ bot_name.length ≤ 50) then .error .botName
  else if ¬ (1 ≤ ticker.length ∧ ticker.length ≤ 30) then .error .tickerLen
  else if ¬ (ticker.data.all Char.isAlphanum) then .error .tickerAlnum
  else if quantity ≤ 0 then .error .quantity
  -- stop_loss and take_profit are assigned with no check (models.py 81-82)
  else if entry_submit_price ≠ 0 ∧ entry_submit_price ≤ 0 then
    .error .entrySubmitPrice
  else if optPriceBad entry_price then .error .entryPrice
  else if optPriceBad exit_submit_price then .error .exitSubmitPrice
  else if optPriceBad exit_price then .error .exitPrice
  else if triggerBad trigger then .error .trigger
  else .ok {
    id := id
    bot_name := bot_name
    ticker := ticker
    position_type := position_type
    quantity := quantity
    action := action
    observed_entry_date := observed_entry_date.getD now
    observed_exit_date := observed_exit_date
    stop_loss := stop_loss
    take_profit := take_profit
    entry_submit_price := entry_submit_price
    entry_submit_date := entry_submit_date.getD now
    entry_date := entry_date
    entry_price := entry_price
    exit_submit_date := exit_submit_date
    exit_submit_price := exit_submit_price
    exit_date := exit_date
    exit_price := exit_price
    exit_reason := exit_reason
    trigger := orNoneStr trigger
    order_type := order_type
    status := status }

/-- Errors raised across the core, tagged by raise site. -/
inductive Err
  | invalidPrice                 -- bot.py 210
  | validation (e : VErr)        -- TradeKitPosition init ValueError
  | insufficientResources (trade_type : String)  -- bot.py 164
  | noOpenPosition               -- bot.py 179
  | zeroDivision                 -- Python ZeroDivisionError in bot.py 173
  | invalidTransition            -- broker.py 53
  | insufficientFunds            -- broker.py 89
  | insufficientShares           -- broker.py 112
  | missingId                    -- database.py 86
  | noneTypePrice                -- Python TypeError: None price arithmetic
  | noPositionAttr               -- Python AttributeError: position is None
  | negativeDeposit              -- broker.py 39 and 45
  | executionFailed (inner : Err)                   -- broker.py 60 wrapper
  | orderPlacementFailed (action : ActionT) (inner : Err) -- bot.py 239 wrapper
deriving DecidableEq

/-- Account state owned by the broker (broker.py lines 17-19). -/
structure TradeKitBroker where
  cash : ℚ
  asset_holdings : ℚ
  commission : ℚ
deriving DecidableEq

/-- Models `TradeKitBroker.__init__` account fields: cash 0.0, holdings 0,
commission 0.0. -/
def TradeKitBroker.start : TradeKitBroker := ⟨0, 0, 0⟩

/-- Models `TradeKitBroker.deposit` (broker.py lines 36-40). -/
def TradeKitBroker.deposit (b : TradeKitBroker) (amount : ℚ) :
    Except Err TradeKitBroker :=
  if amount < 0 then .error .negativeDeposit
  else .ok { b with cash := b.cash + amount }

/-- Models `TradeKitBroker.deposit_assets` (broker.py lines 42-46). -/
def TradeKitBroker.deposit_assets (b : TradeKitBroker) (amount : ℚ) :
    Except Err TradeKitBroker :=
  if amount < 0 then .error .negativeDeposit
  else .ok { b with asset_holdings := b.asset_holdings + amount }

/-- One persistence call made against the store, with the record value at
call time. -/
inductive DbCall
  | create (p : TradeKitPosition)
  | update (p : TradeKitPosition)
deriving DecidableEq

/-- Whether a store call is an `update_position` call. -/
def DbCall.isUpdate : DbCall → Bool
  | .create _ => false
  | .update _ => true

/-- Observable store state: the next SERIAL id and the log of calls. -/
structure TradeKitDB where
  nextId : ℕ
  calls : List DbCall
deriving DecidableEq

/-- Models `TradeKitDB.create_position` (database.py lines 120-151): inserts the
record and returns the assigned id. -/
def TradeKitDB.create_position (db : TradeKitDB) (p : TradeKitPosition) :
    TradeKitDB × ℕ :=
  ({ nextId := db.nextId + 1, calls := db.calls ++ [.create p] }, db.nextId)

/-- Models `TradeKitDB.update_position` (database.py lines 83-118): raises when the
record has no id, otherwise updates the row. -/
def TradeKitDB.update_position (db : TradeKitDB) (p : TradeKitPosition) :
    Except Err TradeKitDB :=
  match p.id with
  | none => .error .missingId
  | some _ => .ok { db with calls := db.calls ++ [.update p] }

/-- The state touched by `TradeKitBroker.execute_order`: the account, the
store, and the (shared, mutable) active position object. -/
structure ExecState where
  broker : TradeKitBroker
  db : TradeKitDB
  pos : TradeKitPosition
deriving DecidableEq

/-- The price `_handle_buy_execution` reads (broker.py lines 81-84):
`exit_submit_price` for SHORT (an `Option`, `None` is a TypeError), else
`entry_submit_price`. -/
def buy_exec_price (pos : TradeKitPosition) : Option ℚ :=
  if pos.position_type = .SHORT then pos.exit_submit_price
  else some pos.entry_submit_price

/-- The price `_handle_sell_execution` reads (broker.py lines 104-107). -/
def sell_exec_price (pos : TradeKitPosition) : Option ℚ :=
  if pos.position_type = .LONG then pos.exit_submit_price
  else some pos.entry_submit_price

/-- Models `TradeKitBroker._submit_order_to_broker` (broker.py lines 63-70): set
status PENDING, stamp the submit date of the acting leg, persist. -/
def submit_order_to_broker (now : DTime) (s : ExecState) :
    ExecState × Option Err :=
  let pos0 := { s.pos with status := Status.PENDING }
  let pos :=
    match pos0.action with
    | .BUY => { pos0 with entry_submit_date := now }
    | .SELL => { pos0 with exit_submit_date := some now }
  match s.db.update_position pos with
  | .error e => ({ s with pos := pos }, some e)
  | .ok db' => ({ s with pos := pos, db := db' }, none)

/-- Models `TradeKitBroker._handle_buy_execution` (broker.py lines 79-100).
On insufficient funds the debit is reverted (`cash += cost`), so the
returned state is the input state. -/
def handle_buy_execution (now : DTime) (s : ExecState) :
    ExecState × Option Err :=
  match buy_exec_price s.pos with
  | none => (s, some .noneTypePrice)
  | some p =>
    let cost := p * (s.pos.quantity : ℚ)
    let cash' := s.broker.cash - cost
    if cash' < 0 then (s, some .insufficientFunds)
    else
      let broker' := { s.broker with
        cash := cash'
        asset_holdings := s.broker.asset_holdings + (s.pos.quantity : ℚ) }
      let pos' :=
        match s.pos.position_type with
        | .LONG => { s.pos with
            status := Status.OPEN
            entry_date := some now
            entry_price := some s.pos.entry_submit_price }
        | .SHORT => { s.pos with
            status := Status.CLOSED
            exit_date := some now
            exit_price := s.pos.exit_submit_price }
      match s.db.update_position pos' with
      | .error e => ({ broker := broker', db := s.db, pos := pos' }, some e)
      | .ok db' => ({ broker := broker', db := db', pos := pos' }, none)

/-- Models `TradeKitBroker._handle_sell_execution` (broker.py lines 102-123).
On insufficient shares the debit is reverted (`asset_holdings += quantity`),
so the returned state is the input state. -/
def handle_sell_execution (now : DTime) (s : ExecState) :
    ExecState × Option Err :=
  match sell_exec_price s.pos with
  | none => (s, some .noneTypePrice)
  | some p =>
    let proceeds := p * (s.pos.quantity : ℚ)
    let holdings' := s.broker.asset_holdings - (s.pos.quantity : ℚ)
    if holdings' < 0 then (s, some .insufficientShares)
    else
      let broker' := { s.broker with
        cash := s.broker.cash + proceeds
        asset_holdings := holdings' }
      let pos' :=
        match s.pos.position_type with
        | .LONG => { s.pos with
            status := Status.CLOSED
            exit_date := some now
            exit_price := s.pos.exit_submit_price }
        | .SHORT => { s.pos with
            status := Status.OPEN
            entry_date := some now
            entry_price := some s.pos.entry_submit_price }
      match s.db.update_position pos' with
      | .error e => ({ broker := broker', db := s.db, pos := pos' }, some e)
      | .ok db' => ({ broker := broker', db := db', pos := pos' }, none)

/-- Models `TradeKitBroker._finalize_order_execution` (broker.py lines 72-77). -/
def finalize_order_execution (now : DTime) (s : ExecState) :
    ExecState × Option Err :=
  match s.pos.action with
  | .BUY => handle_buy_execution now s
  | .SELL => handle_sell_execution now s

/-- Models `TradeKitBroker.execute_order` (broker.py lines 48-61): reject unless
status is PENDING or OPEN (ValueError raised before the try, state
untouched); otherwise submit then finalize, wrapping any exception from
those phases as RuntimeError (`executionFailed`); on success return the
active position's quantity. -/
def execute_order (now : DTime) (s : ExecState) : ExecState × Except Err ℤ :=
  if ¬ (s.pos.status = .PENDING ∨ s.pos.status = .OPEN) then
    (s, .error .invalidTransition)
  else
    match submit_order_to_broker now s with
    | (s1, some e) => (s1, .error (.executionFailed e))
    | (s1, none) =>
      match finalize_order_execution now s1 with
      | (s2, some e) => (s2, .error (.executionFailed e))
      | (s2, none) => (s2, .ok s2.pos.quantity)

/-- Aggressiveness level names (bot.py lines 33-47). -/
inductive Level
  | max | moderate | conservative
deriving DecidableEq

/-- An aggressiveness map: level name to fraction (bot.py lines 33-37). -/
structure AggLevels where
  maxLv : ℚ
  moderateLv : ℚ
  conservativeLv : ℚ
deriving DecidableEq

/-- Dictionary lookup `levels[level]`. -/
def AggLevels.get : AggLevels → Level → ℚ
  | l, .max => l.maxLv
  | l, .moderate => l.moderateLv
  | l, .conservative => l.conservativeLv

/-- Models `insufficient_resources_policy` values (bot.py lines 53-58). -/
inductive IRPolicy
  | adjust | skip | halt
deriving DecidableEq

/-- The `TradeKitBot` state the order path reads and writes
(bot.py lines 21-58): identity, the two aggressiveness maps with their
active levels, the insufficient-resources policy, and the tracked
position. -/
structure TradeKitBot where
  name : String
  ticker : String
  buy_aggressiveness_levels : AggLevels
  buy_aggressiveness : Level
  sell_aggressiveness_levels : AggLevels
  sell_aggressiveness : Level
  insufficient_resources_policy : IRPolicy
  position : Option TradeKitPosition
deriving DecidableEq

/-- Models `TradeKitBot.__init__` defaults (bot.py lines 21-58): buy map
{max 1.0, moderate 0.6, conservative 0.4} with the moderate level active,
sell map the same with max active, policy adjust, no tracked position. -/
def TradeKitBot.start (name ticker : String) : TradeKitBot :=
  { name := name
    ticker := ticker
    buy_aggressiveness_levels := ⟨1, 3/5, 2/5⟩
    buy_aggressiveness := .moderate
    sell_aggressiveness_levels := ⟨1, 3/5, 2/5⟩
    sell_aggressiveness := .max
    insufficient_resources_policy := .adjust
    position := none }

/-- Models `TradeKitBot.enforce_quantity_policy` (bot.py lines 153-166). -/
def TradeKitBot.enforce_quantity_policy (bot : TradeKitBot) (quantity : ℤ)
    (trade_type : String) : Except Err ℤ :=
  if quantity > 0 then .ok quantity
  else
    match bot.insufficient_resources_policy with
    | .adjust => .ok 0
    | .skip => .ok 0
    | .halt => .error (.insufficientResources trade_type)

/-- Models `TradeKitBot.calculate_buy_quantity` (bot.py lines 168-174):
`int(cash * level_fraction * (1 - commission) / price)` then policy
enforcement.  Division by a zero price is a Python ZeroDivisionError. -/
def TradeKitBot.calculate_buy_quantity (bot : TradeKitBot)
    (broker : TradeKitBroker) (price : ℚ) : Except Err ℤ :=
  if price = 0 then .error .zeroDivision
  else
    let r := bot.buy_aggressiveness_levels.get bot.buy_aggressiveness
    let budget := broker.cash * r
    let budget_after_commission := budget * (1 - broker.commission)
    let quantity := pyInt (budget_after_commission / price)
    bot.enforce_quantity_policy quantity ("buy")

/-- Models `TradeKitBot.calculate_sell_quantity` (bot.py lines 176-183): raise if
no position is tracked and holdings are zero; size from the tracked
position's quantity, else from the broker's holdings. -/
def TradeKitBot.calculate_sell_quantity (bot : TradeKitBot)
    (broker : TradeKitBroker) : Except Err ℤ :=
  if bot.position = none ∧ broker.asset_holdings = 0 then
    .error .noOpenPosition
  else
    let r := bot.sell_aggressiveness_levels.get bot.sell_aggressiveness
    let q : ℚ :=
      match bot.position with
      | some p => (p.quantity : ℚ)
      | none => broker.asset_holdings
    let quantity := pyInt (q * r)
    bot.enforce_quantity_policy quantity ("sell")

/-- The whole system: the bot (which tracks the position), the broker
account and the store. -/
structure Sys where
  bot : TradeKitBot
  broker : TradeKitBroker
  db : TradeKitDB
deriving DecidableEq

/-- Hand the shared position object to `TradeKitBroker.execute_order` and
write the mutated broker/store/position back into the system. -/
def run_execute (now : DTime) (s : Sys) (pos : TradeKitPosition) :
    Sys × Except Err ℤ :=
  let r := execute_order now ⟨s.broker, s.db, pos⟩
  ({ bot := { s.bot with position := some r.1.pos }
     broker := r.1.broker
     db := r.1.db }, r.2)

/-- Models `TradeKitBot.submit_order` (bot.py lines 241-258): route by the
*record's* action and position_type (the `position_type` parameter is
shadowed on line 244), persisting via `create_position` for BUY/LONG and
SELL/SHORT (id assigned) and via `update_position` — after setting
`exit_submit_price` — for BUY/SHORT and SELL/LONG; then execute. -/
def submit_order (now : DTime) (price : ℚ) (s : Sys) : Sys × Except Err ℤ :=
  match s.bot.position with
  | none => (s, .error .noPositionAttr)
  | some pos =>
    match pos.action, pos.position_type with
    | .BUY, .LONG =>
      let c := s.db.create_position pos
      let pos' := { pos with id := some c.2 }
      run_execute now { s with db := c.1 } pos'
    | .BUY, .SHORT =>
      let pos' := { pos with exit_submit_price := some price }
      match s.db.update_position pos' with
      | .error e =>
        ({ s with bot := { s.bot with position := some pos' } }, .error e)
      | .ok db' => run_execute now { s with db := db' } pos'
    | .SELL, .LONG =>
      let pos' := { pos with exit_submit_price := some price }
      match s.db.update_position pos' with
      | .error e =>
        ({ s with bot := { s.bot with position := some pos' } }, .error e)
      | .ok db' => run_execute now { s with db := db' } pos'
    | .SELL, .SHORT =>
      let c := s.db.create_position pos
      let pos' := { pos with id := some c.2 }
      run_execute now { s with db := c.1 } pos'

/-- The `try` block of `TradeKitBot.place_order` (bot.py lines 234-239):
submit, then decrement the tracked record's quantity by the executed
quantity and return it; any exception is wrapped as
`Error placing {action} order` (`orderPlacementFailed`). -/
def place_finish (now : DTime) (action : ActionT) (price : ℚ) (s : Sys) :
    Sys × Except Err (Option ℤ) :=
  match submit_order now price s with
  | (s', .error e) => (s', .error (.orderPlacementFailed action e))
  | (s', .ok executed) =>
    match s'.bot.position with
    | none => (s', .error .noPositionAttr)
    | some pos =>
      let pos' := { pos with quantity := pos.quantity - executed }
      ({ s' with bot := { s'.bot with position := some pos' } },
       .ok (some executed))

/-- Models `TradeKitBot.place_order` (bot.py lines 207-239).  Returns `.ok none`
for the skip-policy no-trade return, `.ok (some q)` for a filled quantity. -/
def place_order (now : DTime) (action : ActionT) (position_type : PosType)
    (price : ℚ) (observed_date : Option DTime) (stop_loss : Option ℚ)
    (take_profit : Option ℚ) (s : Sys) : Sys × Except Err (Option ℤ) :=
  if price ≤ 0 then (s, .error .invalidPrice)
  else
    let qr :=
      match action with
      | .BUY => s.bot.calculate_buy_quantity s.broker price
      | .SELL => s.bot.calculate_sell_quantity s.broker
    match qr with
    | .error e => (s, .error e)
    | .ok quantity =>
      if quantity = 0 ∧ s.bot.insufficient_resources_policy = .skip then
        (s, .ok none)
      else
        match s.bot.position with
        | some pos =>
          if pos.status = .CLOSED then
            match mkTradeKitPosition now s.bot.name s.bot.ticker
                position_type quantity action price .MARKET .PENDING
                none none none none none none none none none
                stop_loss take_profit none observed_date none with
            | .error e => (s, .error (.validation e))
            | .ok newPos =>
              place_finish now action price
                { s with bot := { s.bot with position := some newPos } }
          else
            let pos' := { pos with
              action := action
              observed_exit_date := observed_date }
            place_finish now action price
              { s with bot := { s.bot with position := some pos' } }
        | none =>
          match mkTradeKitPosition now s.bot.name s.bot.ticker
              position_type quantity action price .MARKET .PENDING
              none none none none none none none none none
              stop_loss take_profit none observed_date none with
          | .error e => (s, .error (.validation e))
          | .ok newPos =>
            place_finish now action price
              { s with bot := { s.bot with position := some newPos } }

/-- Models `TradeKitBot.buy` (bot.py lines 185-194). -/
def buy (now : DTime) (position_type : PosType) (price : ℚ)
    (observed_date : Option DTime) (stop_loss : Option ℚ)
    (take_profit : Option ℚ) (s : Sys) : Sys × Except Err (Option ℤ) :=
  place_order now .BUY position_type price observed_date stop_loss
    take_profit s

/-- Models `TradeKitBot.sell` (bot.py lines 196-205). -/
def sell (now : DTime) (position_type : PosType) (price : ℚ)
    (observed_date : Option DTime) (stop_loss : Option ℚ)
    (take_profit : Option ℚ) (s : Sys) : Sys × Except Err (Option ℤ) :=
  place_order now .SELL position_type price observed_date stop_loss
    take_profit s

/-!
Derived definitions used to state the claims, and staged lemmas about the
pipeline.  `newRecord` abbreviates the record literal `place_order` builds
when it opens a new position; `specBuyQuantity` is modelled from the
SPEC's sizing formula (`floor(cash * ratio * (1 - commission) / price)`),
to be compared with the source's `calculate_buy_quantity`.
-/

/-- The record `place_order` constructs when it opens a new position
(bot.py lines 218-228), after successful validation. -/
def newRecord (now : DTime) (name ticker : String) (pt : PosType) (q : ℤ)
    (a : ActionT) (price : ℚ) (sl tp : Option ℚ) (od : Option DTime) :
    TradeKitPosition :=
  { id := none
    bot_name := name
    ticker := ticker
    position_type := pt
    quantity := q
    action := a
    observed_entry_date := od.getD now
    observed_exit_date := none
    stop_loss := sl
    take_profit := tp
    entry_submit_price := price
    entry_submit_date := now
    entry_date := none
    entry_price := none
    exit_submit_date := none
    exit_submit_price := none
    exit_date := none
    exit_price := none
    exit_reason := none
    trigger := none
    order_type := .MARKET
    status := .PENDING }

/-- The spec's sizing formula, written from the spec's words:
`floor(cash * ratio * (1 - commission) / price)`. -/
def specBuyQuantity (cash commission price r : ℚ) : ℤ :=
  ⌊cash * r * (1 - commission) / price⌋

/-- A concrete record used to instantiate theorems with hypotheses. -/
def basePos : TradeKitPosition :=
  { id := some 1
    bot_name := "bot1"
    ticker := "TICK"
    position_type := .LONG
    quantity := 5
    action := .BUY
    observed_entry_date := 1
    observed_exit_date := none
    stop_loss := none
    take_profit := none
    entry_submit_price := 100
    entry_submit_date := 1
    entry_date := none
    entry_price := none
    exit_submit_date := none
    exit_submit_price := none
    exit_date := none
    exit_price := none
    exit_reason := none
    trigger := none
    order_type := .MARKET
    status := .PENDING }

/-- The spec's round-trip scenario, step 1: a fresh bot with 1000 cash and
commission 0 buys LONG at price 100. -/
def c1_sys0 : Sys :=
  { bot := TradeKitBot.start ("bot1") "TICK"
    broker := { cash := 1000, asset_holdings := 0, commission := 0 }
    db := { nextId := 1, calls := [] } }

/-- The buy leg of the round-trip scenario. -/
def c1_buy : Sys × Except Err (Option ℤ) :=
  buy 10 .LONG 100 none none none c1_sys0

/-- The sell leg of the round-trip scenario: SELL/LONG at price 120 on the
state the buy produced. -/
def c1_sell : Sys × Except Err (Option ℤ) :=
  sell 20 .LONG 120 none none none c1_buy.1

/-- The record as first constructed by the buy leg. -/
def c1_p0 : TradeKitPosition :=
  ⟨none, "bot1", "TICK", .LONG, 6, .BUY, 10, none, none, none, 100, 10,
   none, none, none, none, none, none, none, none, .MARKET, .PENDING⟩

/-- The tracked record after the buy leg: filled OPEN at 100, and its
`quantity` field decremented to 0 by `place_order` (bot.py line 236). -/
def c1_posAfterBuy : TradeKitPosition :=
  ⟨some 1, "bot1", "TICK", .LONG, 0, .BUY, 10, none, none, none, 100, 10,
   some 10, some 100, none, none, none, none, none, none, .MARKET, .OPEN⟩

/-- The bot state after the buy leg. -/
def c1_botAfterBuy : TradeKitBot :=
  { TradeKitBot.start ("bot1") "TICK" with position := some c1_posAfterBuy }

/-- The store state after the buy leg. -/
def c1_dbAfterBuy : TradeKitDB :=
  ⟨2, [DbCall.create c1_p0,
       DbCall.update { c1_p0 with id := some 1 },
       DbCall.update { c1_p0 with
          id := some 1
          status := Status.OPEN
          entry_date := some 10
          entry_price := some 100 }]⟩

/-- An OPEN short position about to be covered: action BUY, type SHORT,
already persisted with id 3. -/
def c7_pos : TradeKitPosition :=
  ⟨some 3, "bot1", "TICK", .SHORT, 4, .BUY, 1, none, none, none, 50, 1,
   none, none, none, none, none, none, none, none, .MARKET, .OPEN⟩

/-- System tracking the short position of `c7_pos`, with the store's id
counter at 9. -/
def c7_sys : Sys :=
  ⟨{ TradeKitBot.start ("bot1") "TICK" with position := some c7_pos },
   ⟨1000, 0, 0⟩, ⟨9, []⟩⟩

/-- A tracked CANCELED LONG record, already persisted with id 7. -/
def c10_pos : TradeKitPosition :=
  ⟨some 7, "bot1", "TICK", .LONG, 5, .SELL, 1, none, none, none, 100, 1,
   none, none, none, none, none, none, none, none, .MARKET, .CANCELED⟩

/-- System tracking the CANCELED record of `c10_pos`. -/
def c10_sys : Sys :=
  ⟨{ TradeKitBot.start ("bot1") "TICK" with position := some c10_pos },
   ⟨1000, 0, 0⟩, ⟨8, []⟩⟩

/-- A buy on the CANCELED position. -/
def c10_run : Sys × Except Err (Option ℤ) :=
  buy 30 .LONG 100 (some 99) none none c10_sys

/-- A tracked FAILED LONG record, already persisted with id 7. -/
def c10b_pos : TradeKitPosition :=
  ⟨some 7, "bot1", "TICK", .LONG, 5, .SELL, 1, none, none, none, 100, 1,
   none, none, none, none, none, none, none, none, .MARKET, .FAILED⟩

/-- The ledger operations of the claim: construction is
`TradeKitBroker.start`; the mutating operations are `deposit`,
`deposit_assets` and `execute_order`. -/
inductive LedgerOp
  | deposit (amount : ℚ)
  | deposit_assets (amount : ℚ)
  | execute (now : DTime) (pos : TradeKitPosition)
deriving DecidableEq

/-- Apply one ledger operation to the broker account (threading the
store, which `execute_order` also touches). -/
def applyLedgerOp (b : TradeKitBroker) (db : TradeKitDB) :
    LedgerOp → Except Err (TradeKitBroker × TradeKitDB)
  | .deposit a => (b.deposit a).map fun b' => (b', db)
  | .deposit_assets a => (b.deposit_assets a).map fun b' => (b', db)
  | .execute now pos =>
    match execute_order now ⟨b, db, pos⟩ with
    | (s, .ok _) => .ok (s.broker, s.db)
    | (_, .error e) => .error e

/-- Run a sequence of ledger operations, stopping at the first failure. -/
def runLedgerOps : TradeKitBroker × TradeKitDB → List LedgerOp →
    Except Err (TradeKitBroker × TradeKitDB)
  | s, [] => .ok s
  | s, op :: rest =>
    match applyLedgerOp s.1 s.2 op with
    | .error e => .error e
    | .ok s' => runLedgerOps s' rest

/-- The numeric ranges every record reachable in the system satisfies:
construction validates `quantity > 0` and rejects negative prices (and
`place_order` only ever lowers `quantity` to 0). -/
def posWellFormed (p : TradeKitPosition) : Prop :=
  0 ≤ p.quantity ∧ 0 ≤ p.entry_submit_price ∧
    ∀ v, p.exit_submit_price = some v → 0 ≤ v

/-- Well-formedness of an operation: executes carry a well-formed record. -/
def opWellFormed : LedgerOp → Prop
  | .execute _ pos => posWellFormed pos
  | _ => True

/-- Successful construction of a fresh record by `place_order`. -/
theorem mk_new_ok (now : DTime) (name ticker : String) (pt : PosType)
    (q : ℤ) (a : ActionT) (price : ℚ) (sl tp : Option ℚ) (od : Option DTime)
    (hn : 1 ≤ name.length ∧ name.length ≤ 50)
    (ht : 1 ≤ ticker.length ∧ ticker.length ≤ 30)
    (hta : ticker.data.all Char.isAlphanum = true)
    (hq : 0 < q) (hp : 0 ≤ price) :
    mkTradeKitPosition now name ticker pt q a price .MARKET .PENDING
      none none none none none none none none none sl tp none od none =
    .ok (newRecord now name ticker pt q a price sl tp od) := by
  unfold mkTradeKitPosition
  rw [if_neg (not_not_intro hn), if_neg (not_not_intro ht),
    if_neg (not_not_intro hta), if_neg (not_le.mpr hq),
    if_neg (fun h => h.1 (le_antisymm h.2 hp)),
    if_neg (by simp [optPriceBad]), if_neg (by simp [optPriceBad]),
    if_neg (by simp [optPriceBad]), if_neg (by simp [triggerBad])]
  rfl

/-- Construction with a non-positive quantity fails naming `quantity`
(models.py lines 71-72), provided the earlier name/ticker checks pass. -/
theorem mk_quantity_nonpos (now : DTime) (name ticker : String)
    (pt : PosType) (q : ℤ) (a : ActionT) (price : ℚ) (sl tp : Option ℚ)
    (od : Option DTime)
    (hn : 1 ≤ name.length ∧ name.length ≤ 50)
    (ht : 1 ≤ ticker.length ∧ ticker.length ≤ 30)
    (hta : ticker.data.all Char.isAlphanum = true)
    (hq : q ≤ 0) :
    mkTradeKitPosition now name ticker pt q a price .MARKET .PENDING
      none none none none none none none none none sl tp none od none =
    .error .quantity := by
  unfold mkTradeKitPosition
  rw [if_neg (not_not_intro hn), if_neg (not_not_intro ht),
    if_neg (not_not_intro hta), if_pos hq]

/-- Models `execute_order` refuses a record that is not PENDING or OPEN, leaving
every part of the state untouched (broker.py lines 52-53: the ValueError
is raised before the submit phase). -/
theorem execute_refused_of_terminal (now : DTime) (s : ExecState)
    (h1 : s.pos.status ≠ .PENDING) (h2 : s.pos.status ≠ .OPEN) :
    execute_order now s = (s, .error .invalidTransition) := by
  unfold execute_order
  rw [if_pos (fun hor => hor.elim h1 h2)]

/-- Full run of `execute_order` for a BUY on a LONG record with sufficient
cash: submit stamps PENDING and the entry submit date, the fill debits
cash, credits holdings, sets OPEN and the entry fill fields, and each
phase persists one update. -/
theorem execute_buy_long_ok (now : DTime) (b : TradeKitBroker)
    (db : TradeKitDB) (pos : TradeKitPosition) (i : ℕ)
    (hst : pos.status = .PENDING ∨ pos.status = .OPEN)
    (hact : pos.action = .BUY) (hpt : pos.position_type = .LONG)
    (hid : pos.id = some i)
    (hcash : 0 ≤ b.cash - pos.entry_submit_price * (pos.quantity : ℚ)) :
    execute_order now ⟨b, db, pos⟩ =
      (⟨{ b with
            cash := b.cash - pos.entry_submit_price * (pos.quantity : ℚ)
            asset_holdings := b.asset_holdings + (pos.quantity : ℚ) },
        { db with calls := db.calls ++
            [DbCall.update { pos with
                status := Status.PENDING
                entry_submit_date := now },
             DbCall.update { pos with
                status := Status.OPEN
                entry_submit_date := now
                entry_date := some now
                entry_price := some pos.entry_submit_price }] },
        { pos with
            status := Status.OPEN
            entry_submit_date := now
            entry_date := some now
            entry_price := some pos.entry_submit_price }⟩,
       .ok pos.quantity) := by
  unfold execute_order submit_order_to_broker finalize_order_execution
    handle_buy_execution buy_exec_price TradeKitDB.update_position
  simp only [hact, hpt, hid, not_lt.mpr hcash]
  rw [if_neg (not_not_intro hst)]
  simp [not_lt.mpr hcash, hid]

/-- Full run of `execute_order` for a SELL on a LONG record with
sufficient holdings: submit stamps PENDING and the exit submit date, the
fill debits holdings, credits cash with `exit_submit_price * quantity`,
sets CLOSED and the exit fill fields, and each phase persists one
update. -/
theorem execute_sell_long_ok (now : DTime) (b : TradeKitBroker)
    (db : TradeKitDB) (pos : TradeKitPosition) (i : ℕ) (p : ℚ)
    (hst : pos.status = .PENDING ∨ pos.status = .OPEN)
    (hact : pos.action = .SELL) (hpt : pos.position_type = .LONG)
    (hid : pos.id = some i)
    (hesp : pos.exit_submit_price = some p)
    (hhold : 0 ≤ b.asset_holdings - (pos.quantity : ℚ)) :
    execute_order now ⟨b, db, pos⟩ =
      (⟨{ b with
            cash := b.cash + p * (pos.quantity : ℚ)
            asset_holdings := b.asset_holdings - (pos.quantity : ℚ) },
        { db with calls := db.calls ++
            [DbCall.update { pos with
                status := Status.PENDING
                exit_submit_date := some now },
             DbCall.update { pos with
                status := Status.CLOSED
                exit_submit_date := some now
                exit_date := some now
                exit_price := some p }] },
        { pos with
            status := Status.CLOSED
            exit_submit_date := some now
            exit_date := some now
            exit_price := some p }⟩,
       .ok pos.quantity) := by
  unfold execute_order submit_order_to_broker finalize_order_execution
    handle_sell_execution sell_exec_price TradeKitDB.update_position
  simp only [hact, hpt, hid, hesp, not_lt.mpr hhold]
  rw [if_neg (not_not_intro hst)]
  simp [not_lt.mpr hhold, hid, hesp]

/-- Full run of `place_order` opening a fresh BUY/LONG position (no tracked
position): the computed quantity is filled, cash is debited by
`price * quantity`, holdings credited, the record ends OPEN with
`entry_price = price`, and the store receives one create and two
updates.  The tracked record's own `quantity` field ends at 0 because
`place_order` decrements it by the executed quantity (bot.py line 236). -/
theorem place_buy_long_fresh_ok (now : DTime) (bot : TradeKitBot)
    (br : TradeKitBroker) (db : TradeKitDB) (price : ℚ) (od : Option DTime)
    (sl tp : Option ℚ) (q : ℤ)
    (hpos : bot.position = none) (hp : 0 < price)
    (hn : 1 ≤ bot.name.length ∧ bot.name.length ≤ 50)
    (ht : 1 ≤ bot.ticker.length ∧ bot.ticker.length ≤ 30)
    (hta : bot.ticker.data.all Char.isAlphanum = true)
    (hcalc : bot.calculate_buy_quantity br price = .ok q)
    (hq : 0 < q)
    (hcash : 0 ≤ br.cash - price * (q : ℚ)) :
    place_order now .BUY .LONG price od sl tp ⟨bot, br, db⟩ =
      (⟨{ bot with position := some (
            { newRecord now bot.name bot.ticker .LONG q .BUY price sl tp od with
                id := some db.nextId
                status := Status.OPEN
                entry_date := some now
                entry_price := some price
                quantity := 0 }) },
        { br with
            cash := br.cash - price * (q : ℚ)
            asset_holdings := br.asset_holdings + (q : ℚ) },
        { db with
            nextId := db.nextId + 1
            calls := db.calls ++
              [DbCall.create
                 (newRecord now bot.name bot.ticker .LONG q .BUY price sl tp od),
               DbCall.update
                 { newRecord now bot.name bot.ticker .LONG q .BUY price sl tp od with
                     id := some db.nextId },
               DbCall.update
                 { newRecord now bot.name bot.ticker .LONG q .BUY price sl tp od with
                     id := some db.nextId
                     status := Status.OPEN
                     entry_date := some now
                     entry_price := some price }] }⟩,
       .ok (some q)) := by
  have hmk := mk_new_ok now bot.name bot.ticker .LONG q .BUY price sl tp od
    hn ht hta hq (le_of_lt hp)
  have hq' : q ≠ 0 := by omega
  simp only [place_order, if_neg (not_le.mpr hp), hcalc, hpos, hmk, hq',
    false_and, if_false, place_finish, submit_order, run_execute,
    TradeKitDB.create_position, newRecord]
  rw [execute_buy_long_ok now br _ _ db.nextId (Or.inl rfl) rfl rfl rfl hcash]
  simp [newRecord]

/-- Full run of `place_order` for a SELL/LONG against a tracked PENDING or
OPEN position: the record is mutated in place (action, observed exit date,
exit submit price), persisted by update, executed — filling the record's
own `quantity`, not the freshly computed sell quantity — and ends CLOSED
with `exit_price = price`; cash is credited `price * record.quantity` and
holdings debited by `record.quantity`. -/
theorem place_sell_long_tracked_ok (now : DTime) (bot : TradeKitBot)
    (br : TradeKitBroker) (db : TradeKitDB) (price : ℚ) (od : Option DTime)
    (sl tp : Option ℚ) (q : ℤ) (pos : TradeKitPosition) (i : ℕ)
    (hpos : bot.position = some pos)
    (hst : pos.status = .PENDING ∨ pos.status = .OPEN)
    (hpt : pos.position_type = .LONG)
    (hid : pos.id = some i)
    (hp : 0 < price)
    (hcalc : bot.calculate_sell_quantity br = .ok q)
    (hskip : ¬ (q = 0 ∧ bot.insufficient_resources_policy = .skip))
    (hhold : 0 ≤ br.asset_holdings - (pos.quantity : ℚ)) :
    place_order now .SELL .LONG price od sl tp ⟨bot, br, db⟩ =
      (⟨{ bot with position := some (
            { pos with
                action := ActionT.SELL
                observed_exit_date := od
                exit_submit_price := some price
                status := Status.CLOSED
                exit_submit_date := some now
                exit_date := some now
                exit_price := some price
                quantity := 0 }) },
        { br with
            cash := br.cash + price * (pos.quantity : ℚ)
            asset_holdings := br.asset_holdings - (pos.quantity : ℚ) },
        { db with
            calls := db.calls ++
              [DbCall.update
                 { pos with
                     action := ActionT.SELL
                     observed_exit_date := od
                     exit_submit_price := some price },
               DbCall.update
                 { pos with
                     action := ActionT.SELL
                     observed_exit_date := od
                     exit_submit_price := some price
                     status := Status.PENDING
                     exit_submit_date := some now },
               DbCall.update
                 { pos with
                     action := ActionT.SELL
                     observed_exit_date := od
                     exit_submit_price := some price
                     status := Status.CLOSED
                     exit_submit_date := some now
                     exit_date := some now
                     exit_price := some price }] }⟩,
       .ok (some pos.quantity)) := by
  have hnc : pos.status ≠ .CLOSED := by
    rcases hst with h | h <;> simp [h]
  have key := execute_sell_long_ok now br
    { db with calls := db.calls ++
        [DbCall.update { pos with
            id := some i
            action := ActionT.SELL
            observed_exit_date := od
            exit_submit_price := some price }] }
    { pos with
        id := some i
        action := ActionT.SELL
        observed_exit_date := od
        exit_submit_price := some price }
    i price hst rfl hpt rfl rfl hhold
  simp only [place_order, if_neg (not_le.mpr hp), hcalc, hpos,
    if_neg hskip, if_neg hnc, place_finish, submit_order,
    TradeKitDB.update_position, hid, hpt, run_execute] at key ⊢
  rw [key]
  simp

/-- Failing BUY finalize: when the debit would leave `cash < 0`, the debit
is reverted (broker.py line 88) and the ValueError is wrapped by
`execute_order`; only the submit-phase record/store mutations remain. -/
theorem execute_buy_insufficient (now : DTime) (b : TradeKitBroker)
    (db : TradeKitDB) (pos : TradeKitPosition) (i : ℕ) (p : ℚ)
    (hst : pos.status = .PENDING ∨ pos.status = .OPEN)
    (hact : pos.action = .BUY) (hid : pos.id = some i)
    (hbp : buy_exec_price pos = some p)
    (hlt : b.cash - p * (pos.quantity : ℚ) < 0) :
    execute_order now ⟨b, db, pos⟩ =
      (⟨b,
        { db with calls := db.calls ++
            [DbCall.update { pos with
                status := Status.PENDING
                entry_submit_date := now }] },
        { pos with status := Status.PENDING, entry_submit_date := now }⟩,
       .error (.executionFailed .insufficientFunds)) := by
  have e1 : buy_exec_price
      { pos with
          id := some i
          action := ActionT.BUY
          status := Status.PENDING
          entry_submit_date := now } = some p := hbp
  unfold execute_order submit_order_to_broker finalize_order_execution
    handle_buy_execution TradeKitDB.update_position
  rw [if_neg (not_not_intro hst)]
  simp only [hact, hid, e1]
  rw [if_pos hlt]

/-- Failing SELL finalize: when the debit would leave holdings `< 0`, the
debit is reverted (broker.py line 111) and the ValueError is wrapped; only
the submit-phase mutations remain. -/
theorem execute_sell_insufficient (now : DTime) (b : TradeKitBroker)
    (db : TradeKitDB) (pos : TradeKitPosition) (i : ℕ) (p : ℚ)
    (hst : pos.status = .PENDING ∨ pos.status = .OPEN)
    (hact : pos.action = .SELL) (hid : pos.id = some i)
    (hsp : sell_exec_price pos = some p)
    (hlt : b.asset_holdings - (pos.quantity : ℚ) < 0) :
    execute_order now ⟨b, db, pos⟩ =
      (⟨b,
        { db with calls := db.calls ++
            [DbCall.update { pos with
                status := Status.PENDING
                exit_submit_date := some now }] },
        { pos with status := Status.PENDING, exit_submit_date := some now }⟩,
       .error (.executionFailed .insufficientShares)) := by
  have e1 : sell_exec_price
      { pos with
          id := some i
          action := ActionT.SELL
          status := Status.PENDING
          exit_submit_date := some now } = some p := hsp
  unfold execute_order submit_order_to_broker finalize_order_execution
    handle_sell_execution TradeKitDB.update_position
  rw [if_neg (not_not_intro hst)]
  simp only [hact, hid, e1]
  rw [if_pos hlt]

/-- C6: for every record whose status is not PENDING and not OPEN (in
particular CLOSED, CANCELED or FAILED), `execute_order` fails with the
invalid-transition error and leaves the whole state — in particular the
record's status — unchanged: a terminal record is never moved to any other
status by execution. -/
theorem C6_terminal_status_rejected (now : DTime) (s : ExecState)
    (h : s.pos.status ≠ .PENDING ∧ s.pos.status ≠ .OPEN) :
    execute_order now s = (s, .error .invalidTransition) :=
  execute_refused_of_terminal now s h.1 h.2

/-- Witness for C6 at a concrete CLOSED record. -/
theorem C6_terminal_status_rejected_witness :
    execute_order 5 ⟨⟨100, 0, 0⟩, ⟨2, []⟩, { basePos with status := Status.CLOSED }⟩ =
      (⟨⟨100, 0, 0⟩, ⟨2, []⟩, { basePos with status := Status.CLOSED }⟩,
       .error .invalidTransition) :=
  C6_terminal_status_rejected 5 _ ⟨by simp [basePos], by simp [basePos]⟩

/-- C3: ledger execution is atomic on accounting failure.  If the BUY debit
would make cash negative, `execute_order` fails with the
insufficient-funds error; if the SELL debit would make holdings negative,
it fails with the insufficient-shares error; in both failure cases the
broker's cash and asset_holdings are exactly their pre-call values. -/
theorem C3_accounting_failure_atomic (now : DTime) (b : TradeKitBroker)
    (db : TradeKitDB) (pos : TradeKitPosition) (i : ℕ) (p : ℚ)
    (hst : pos.status = .PENDING ∨ pos.status = .OPEN)
    (hid : pos.id = some i) :
    (pos.action = .BUY → buy_exec_price pos = some p →
      b.cash - p * (pos.quantity : ℚ) < 0 →
      (execute_order now ⟨b, db, pos⟩).2 =
          .error (.executionFailed .insufficientFunds) ∧
        (execute_order now ⟨b, db, pos⟩).1.broker = b) ∧
    (pos.action = .SELL → sell_exec_price pos = some p →
      b.asset_holdings - (pos.quantity : ℚ) < 0 →
      (execute_order now ⟨b, db, pos⟩).2 =
          .error (.executionFailed .insufficientShares) ∧
        (execute_order now ⟨b, db, pos⟩).1.broker = b) := by
  constructor
  · intro hact hbp hlt
    rw [execute_buy_insufficient now b db pos i p hst hact hid hbp hlt]
    exact ⟨rfl, rfl⟩
  · intro hact hsp hlt
    rw [execute_sell_insufficient now b db pos i p hst hact hid hsp hlt]
    exact ⟨rfl, rfl⟩

/-- Witness for C3: a PENDING BUY/LONG record of quantity 5 at price 100
against a broker holding 10 cash fails with insufficient funds and leaves
cash and holdings untouched. -/
theorem C3_accounting_failure_atomic_witness :
    (execute_order 5 ⟨⟨10, 0, 0⟩, ⟨2, []⟩, basePos⟩).2 =
        .error (.executionFailed .insufficientFunds) ∧
      (execute_order 5 ⟨⟨10, 0, 0⟩, ⟨2, []⟩, basePos⟩).1.broker = ⟨10, 0, 0⟩ :=
  (C3_accounting_failure_atomic 5 ⟨10, 0, 0⟩ ⟨2, []⟩ basePos 1 100
      (Or.inl (by simp [basePos])) (by simp [basePos])).1
    (by simp [basePos]) (by simp [basePos, buy_exec_price])
    (by norm_num [basePos])

/-- The sized budget never exceeds cash: with a level fraction in [0,1] and
a commission in [0,1], `price * floor(cash * r * (1 - comm) / price)` is at
most `cash`. -/
theorem spec_buy_budget (cash comm price r : ℚ) (hcash : 0 ≤ cash)
    (hr0 : 0 ≤ r) (hr1 : r ≤ 1) (hc0 : 0 ≤ comm) (hc1 : comm ≤ 1)
    (hp : 0 < price) :
    0 ≤ cash - price * (specBuyQuantity cash comm price r : ℚ) := by
  unfold specBuyQuantity
  have h1c : 0 ≤ 1 - comm := by linarith
  have hfl : ((⌊cash * r * (1 - comm) / price⌋ : ℤ) : ℚ) ≤
      cash * r * (1 - comm) / price := Int.floor_le _
  have h2 : price * ((⌊cash * r * (1 - comm) / price⌋ : ℤ) : ℚ) ≤
      price * (cash * r * (1 - comm) / price) :=
    mul_le_mul_of_nonneg_left hfl (le_of_lt hp)
  have h3 : price * (cash * r * (1 - comm) / price) = cash * r * (1 - comm) := by
    field_simp
  have hu1 : r * (1 - comm) ≤ 1 := by
    calc r * (1 - comm) ≤ 1 * (1 - comm) := mul_le_mul_of_nonneg_right hr1 h1c
    _ = 1 - comm := one_mul _
    _ ≤ 1 := by linarith
  have h4 : cash * r * (1 - comm) ≤ cash := by
    calc cash * r * (1 - comm) = cash * (r * (1 - comm)) := by ring
    _ ≤ cash * 1 := mul_le_mul_of_nonneg_left hu1 hcash
    _ = cash := mul_one cash
  linarith [h2, h3, h4]

/-- The spec sizing value is nonnegative under the same hypotheses. -/
theorem spec_buy_quantity_nonneg (cash comm price r : ℚ) (hcash : 0 ≤ cash)
    (hr0 : 0 ≤ r) (hc1 : comm ≤ 1) (hp : 0 < price) :
    0 ≤ cash * r * (1 - comm) / price := by
  have h1c : 0 ≤ 1 - comm := by linarith
  positivity

/-- Models `calculate_buy_quantity` computes exactly the spec's
`floor(cash * ratio * (1 - commission) / price)` whenever the operand is
nonnegative (so Python `int()` truncation is the floor) and the result is
positive (so the policy enforcement passes it through unchanged). -/
theorem calculate_buy_quantity_eq (bot : TradeKitBot) (br : TradeKitBroker)
    (price : ℚ) (hp : 0 < price)
    (hx : 0 ≤ br.cash *
      (bot.buy_aggressiveness_levels.get bot.buy_aggressiveness) *
      (1 - br.commission) / price)
    (hq : 0 < specBuyQuantity br.cash br.commission price
      (bot.buy_aggressiveness_levels.get bot.buy_aggressiveness)) :
    bot.calculate_buy_quantity br price =
      .ok (specBuyQuantity br.cash br.commission price
        (bot.buy_aggressiveness_levels.get bot.buy_aggressiveness)) := by
  unfold TradeKitBot.calculate_buy_quantity TradeKitBot.enforce_quantity_policy
    pyInt
  unfold specBuyQuantity at hq ⊢
  rw [if_neg hp.ne']
  dsimp only
  rw [if_pos hx, if_pos hq]

/-- C2: for every BUY/LONG order placed at a positive price from a bot with
no tracked position, valid identifiers, nonnegative cash, a buy level
fraction in [0,1] and a commission fraction in [0,1], and a positive
computed quantity, the computed quantity is
`floor(cash * ratio * (1 - commission) / price)`; the order fills that
quantity, cash decreases by exactly `price * quantity`, holdings increase
by exactly the quantity, and the record ends with status OPEN and
`entry_price` equal to the submitted price. -/
theorem C2_buy_long_execution (now : DTime) (bot : TradeKitBot)
    (br : TradeKitBroker) (db : TradeKitDB) (price : ℚ) (od : Option DTime)
    (sl tp : Option ℚ)
    (hpos : bot.position = none)
    (hn : 1 ≤ bot.name.length ∧ bot.name.length ≤ 50)
    (ht : 1 ≤ bot.ticker.length ∧ bot.ticker.length ≤ 30)
    (hta : bot.ticker.data.all Char.isAlphanum = true)
    (hp : 0 < price)
    (hcash : 0 ≤ br.cash)
    (hr : 0 ≤ bot.buy_aggressiveness_levels.get bot.buy_aggressiveness ∧
      bot.buy_aggressiveness_levels.get bot.buy_aggressiveness ≤ 1)
    (hc : 0 ≤ br.commission ∧ br.commission ≤ 1)
    (hq : 0 < specBuyQuantity br.cash br.commission price
      (bot.buy_aggressiveness_levels.get bot.buy_aggressiveness)) :
    bot.calculate_buy_quantity br price =
      .ok (specBuyQuantity br.cash br.commission price
        (bot.buy_aggressiveness_levels.get bot.buy_aggressiveness)) ∧
    (place_order now .BUY .LONG price od sl tp ⟨bot, br, db⟩).2 =
      .ok (some (specBuyQuantity br.cash br.commission price
        (bot.buy_aggressiveness_levels.get bot.buy_aggressiveness))) ∧
    (place_order now .BUY .LONG price od sl tp ⟨bot, br, db⟩).1.broker.cash =
      br.cash - price * ((specBuyQuantity br.cash br.commission price
        (bot.buy_aggressiveness_levels.get bot.buy_aggressiveness) : ℤ) : ℚ) ∧
    (place_order now .BUY .LONG price od sl tp
        ⟨bot, br, db⟩).1.broker.asset_holdings =
      br.asset_holdings + ((specBuyQuantity br.cash br.commission price
        (bot.buy_aggressiveness_levels.get bot.buy_aggressiveness) : ℤ) : ℚ) ∧
    ((place_order now .BUY .LONG price od sl tp ⟨bot, br, db⟩).1.bot.position.map
      fun p => p.status) = some Status.OPEN ∧
    ((place_order now .BUY .LONG price od sl tp ⟨bot, br, db⟩).1.bot.position.map
      fun p => p.entry_price) = some (some price) := by
  have hx := spec_buy_quantity_nonneg br.cash br.commission price
    (bot.buy_aggressiveness_levels.get bot.buy_aggressiveness) hcash hr.1 hc.2 hp
  have hcalc := calculate_buy_quantity_eq bot br price hp hx hq
  have hbudget := spec_buy_budget br.cash br.commission price
    (bot.buy_aggressiveness_levels.get bot.buy_aggressiveness)
    hcash hr.1 hr.2 hc.1 hc.2 hp
  refine ⟨hcalc, ?_⟩
  rw [place_buy_long_fresh_ok now bot br db price od sl tp _ hpos hp hn ht hta
    hcalc hq hbudget]
  refine ⟨rfl, rfl, rfl, ?_, ?_⟩ <;> simp

/-- Witness for C2 at the spec's concrete scenario: cash 1000, commission
0, price 100, moderate level 0.6 gives quantity 6, cash 400, holdings 6,
status OPEN, entry price 100. -/
theorem C2_buy_long_execution_witness :
    (TradeKitBot.start ("bot1") "TICK").calculate_buy_quantity ⟨1000, 0, 0⟩ 100 =
      .ok 6 ∧
    (place_order 10 .BUY .LONG 100 none none none
      ⟨TradeKitBot.start ("bot1") "TICK", ⟨1000, 0, 0⟩, ⟨1, []⟩⟩).2 =
      .ok (some 6) ∧
    (place_order 10 .BUY .LONG 100 none none none
      ⟨TradeKitBot.start ("bot1") "TICK", ⟨1000, 0, 0⟩, ⟨1, []⟩⟩).1.broker.cash =
      400 ∧
    (place_order 10 .BUY .LONG 100 none none none
      ⟨TradeKitBot.start ("bot1") "TICK", ⟨1000, 0, 0⟩,
        ⟨1, []⟩⟩).1.broker.asset_holdings = 6 ∧
    ((place_order 10 .BUY .LONG 100 none none none
      ⟨TradeKitBot.start ("bot1") "TICK", ⟨1000, 0, 0⟩, ⟨1, []⟩⟩).1.bot.position.map
      fun p => p.status) = some Status.OPEN := by
  have h6 : specBuyQuantity (1000 : ℚ) 0 100
      ((TradeKitBot.start ("bot1") "TICK").buy_aggressiveness_levels.get
        (TradeKitBot.start ("bot1") "TICK").buy_aggressiveness) = 6 := by
    norm_num [specBuyQuantity, TradeKitBot.start, AggLevels.get]
  have h := C2_buy_long_execution 10 (TradeKitBot.start ("bot1") "TICK")
    ⟨1000, 0, 0⟩ ⟨1, []⟩ 100 none none none rfl
    (by decide) (by decide) (by decide) (by norm_num) (by norm_num)
    (by constructor <;> norm_num [TradeKitBot.start, AggLevels.get])
    (by constructor <;> norm_num)
    (by rw [h6]; norm_num)
  rw [h6] at h
  refine ⟨h.1, h.2.1, ?_, ?_, h.2.2.2.2.1⟩
  · rw [h.2.2.1]; norm_num
  · rw [h.2.2.2.1]; norm_num

/-- C1 (divergence evidence): in the spec's concrete round-trip scenario
the buy fills 6 (cash 400, holdings 6), but the subsequent SELL/LONG at
price 120 fills quantity 0 and leaves cash at 400 and holdings at 6 —
not quantity 6, cash 1120 and holdings 0 as the claim states — because
`place_order` zeroed the tracked record's quantity after the buy and the
broker fills the record's quantity.  Only the CLOSED status matches the
claim. -/
theorem C1_round_trip_divergence :
    c1_buy.2 = .ok (some 6) ∧
    c1_buy.1.broker.cash = 400 ∧
    c1_buy.1.broker.asset_holdings = 6 ∧
    c1_sell.2 = .ok (some 0) ∧
    c1_sell.1.broker.cash = 400 ∧
    c1_sell.1.broker.asset_holdings = 6 ∧
    (c1_sell.1.bot.position.map fun p => p.status) = some Status.CLOSED := by
  have hcalcbuy : (TradeKitBot.start ("bot1") "TICK").calculate_buy_quantity
      ⟨1000, 0, 0⟩ 100 = .ok 6 := by
    norm_num [TradeKitBot.calculate_buy_quantity,
      TradeKitBot.enforce_quantity_policy, pyInt, TradeKitBot.start,
      AggLevels.get]
  have h1 := place_buy_long_fresh_ok 10 (TradeKitBot.start ("bot1") "TICK")
    ⟨1000, 0, 0⟩ ⟨1, []⟩ 100 none none none 6 rfl (by norm_num)
    (by decide) (by decide) (by decide) hcalcbuy (by norm_num) (by norm_num)
  have e1 : c1_buy =
      (⟨c1_botAfterBuy, ⟨400, 6, 0⟩, c1_dbAfterBuy⟩, Except.ok (some 6)) := by
    refine Eq.trans (h1 : c1_buy = _) ?_
    norm_num [TradeKitBot.start, newRecord, c1_botAfterBuy, c1_posAfterBuy,
      c1_dbAfterBuy, c1_p0]
  have efst : c1_buy.1 = ⟨c1_botAfterBuy, ⟨400, 6, 0⟩, c1_dbAfterBuy⟩ := by
    rw [e1]
  have hcalcsell : c1_botAfterBuy.calculate_sell_quantity ⟨400, 6, 0⟩ =
      .ok 0 := by
    norm_num [TradeKitBot.calculate_sell_quantity,
      TradeKitBot.enforce_quantity_policy, pyInt, TradeKitBot.start,
      AggLevels.get, c1_botAfterBuy, c1_posAfterBuy]
  have h2 := place_sell_long_tracked_ok 20 c1_botAfterBuy ⟨400, 6, 0⟩
    c1_dbAfterBuy 120 none none none 0 c1_posAfterBuy 1 rfl (Or.inr rfl)
    rfl rfl (by norm_num) hcalcsell
    (by simp [c1_botAfterBuy, TradeKitBot.start])
    (by norm_num [c1_posAfterBuy])
  have esell : c1_sell = place_order 20 .SELL .LONG 120 none none none
      ⟨c1_botAfterBuy, ⟨400, 6, 0⟩, c1_dbAfterBuy⟩ := by
    show sell 20 .LONG 120 none none none c1_buy.1 = _
    rw [efst]
    rfl
  refine ⟨by rw [e1], by rw [e1], by rw [e1], ?_, ?_, ?_, ?_⟩
  · rw [esell, h2]; norm_num [c1_posAfterBuy]
  · rw [esell, h2]; norm_num [c1_posAfterBuy]
  · rw [esell, h2]; norm_num [c1_posAfterBuy]
  · rw [esell, h2]; norm_num [c1_posAfterBuy]

/-- With zero cash the sized buy quantity is zero, so
`calculate_buy_quantity` reduces to the policy enforcement of 0. -/
theorem calculate_buy_quantity_zero_cash (bot : TradeKitBot)
    (br : TradeKitBroker) (price : ℚ) (hp : price ≠ 0) (hcash : br.cash = 0) :
    bot.calculate_buy_quantity br price =
      bot.enforce_quantity_policy 0 ("buy") := by
  unfold TradeKitBot.calculate_buy_quantity
  rw [if_neg hp]
  dsimp only
  rw [hcash]
  norm_num [pyInt]

/-- C5 counterexample: with cash 0, a tracked-position-free bot under the
default `adjust` policy, a buy at price 100 does not return 0 — it fails
with the ValidationError naming `quantity`, because `place_order` feeds the
adjusted quantity 0 into the `TradeKitPosition` constructor, which rejects
non-positive quantities (models.py lines 71-72). -/
theorem C5_adjust_counterexample :
    (place_order 10 .BUY .LONG 100 none none none
        ⟨TradeKitBot.start ("bot1") "TICK", ⟨0, 0, 0⟩, ⟨1, []⟩⟩).2 =
      .error (.validation .quantity) ∧
    (place_order 10 .BUY .LONG 100 none none none
        ⟨TradeKitBot.start ("bot1") "TICK", ⟨0, 0, 0⟩, ⟨1, []⟩⟩).2 ≠
      .ok (some 0) := by
  have hc : (TradeKitBot.start ("bot1") "TICK").calculate_buy_quantity
      ⟨0, 0, 0⟩ 100 = .ok 0 := by
    rw [calculate_buy_quantity_zero_cash _ _ 100 (by norm_num) rfl]
    rfl
  have hmk := mk_quantity_nonpos 10 ("bot1") "TICK" .LONG 0 .BUY 100 none none
    none (by decide) (by decide) (by decide) le_rfl
  constructor
  · simp only [place_order]
    rw [if_neg (by norm_num : ¬ (100 : ℚ) ≤ 0)]
    simp only [hc]
    rw [if_neg (by simp [TradeKitBot.start])]
    simp only [TradeKitBot.start]
    rw [hmk]
  · simp only [place_order]
    rw [if_neg (by norm_num : ¬ (100 : ℚ) ≤ 0)]
    simp only [hc]
    rw [if_neg (by simp [TradeKitBot.start])]
    simp only [TradeKitBot.start]
    rw [hmk]
    simp

/-- C5 (amended): with cash 0 and no tracked position, a buy at a positive
price computes quantity 0, and `place_order` then behaves per policy:
`halt` fails with InsufficientResources("buy"); `skip` returns the
no-trade marker without mutating any state; `adjust` does NOT return 0 —
the quantity 0 reaches the record constructor, which fails with the
ValidationError naming `quantity` (state unmutated). -/
theorem C5_zero_cash_policy (now : DTime) (bot : TradeKitBot)
    (br : TradeKitBroker) (db : TradeKitDB) (price : ℚ) (od : Option DTime)
    (sl tp : Option ℚ)
    (hpos : bot.position = none)
    (hn : 1 ≤ bot.name.length ∧ bot.name.length ≤ 50)
    (ht : 1 ≤ bot.ticker.length ∧ bot.ticker.length ≤ 30)
    (hta : bot.ticker.data.all Char.isAlphanum = true)
    (hp : 0 < price) (hcash : br.cash = 0) :
    (bot.insufficient_resources_policy = .halt →
      place_order now .BUY .LONG price od sl tp ⟨bot, br, db⟩ =
        (⟨bot, br, db⟩, .error (.insufficientResources ("buy")))) ∧
    (bot.insufficient_resources_policy = .skip →
      place_order now .BUY .LONG price od sl tp ⟨bot, br, db⟩ =
        (⟨bot, br, db⟩, .ok none)) ∧
    (bot.insufficient_resources_policy = .adjust →
      place_order now .BUY .LONG price od sl tp ⟨bot, br, db⟩ =
        (⟨bot, br, db⟩, .error (.validation .quantity))) := by
  have hc0 := calculate_buy_quantity_zero_cash bot br price hp.ne' hcash
  refine ⟨?_, ?_, ?_⟩ <;> intro hpol
  · have hc : bot.calculate_buy_quantity br price =
        .error (.insufficientResources ("buy")) := by
      rw [hc0]
      unfold TradeKitBot.enforce_quantity_policy
      rw [if_neg (by norm_num), hpol]
    simp only [place_order, if_neg (not_le.mpr hp), hc]
  · have hc : bot.calculate_buy_quantity br price = .ok 0 := by
      rw [hc0]
      unfold TradeKitBot.enforce_quantity_policy
      rw [if_neg (by norm_num), hpol]
    simp only [place_order, if_neg (not_le.mpr hp), hc]
    rw [if_pos (by simp [hpol])]
  · have hc : bot.calculate_buy_quantity br price = .ok 0 := by
      rw [hc0]
      unfold TradeKitBot.enforce_quantity_policy
      rw [if_neg (by norm_num), hpol]
    have hmk := mk_quantity_nonpos now bot.name bot.ticker .LONG 0 .BUY price
      sl tp od hn ht hta le_rfl
    simp only [place_order, if_neg (not_le.mpr hp), hc]
    rw [if_neg (by simp [hpol])]
    simp only [hpos, hmk]

/-- Witness for the amended C5, exercising the skip branch at price 100
with cash 0. -/
theorem C5_zero_cash_policy_witness :
    place_order 10 .BUY .LONG 100 none none none
      ⟨{ TradeKitBot.start ("bot1") "TICK" with
          insufficient_resources_policy := IRPolicy.skip }, ⟨0, 0, 0⟩,
        ⟨1, []⟩⟩ =
      (⟨{ TradeKitBot.start ("bot1") "TICK" with
          insufficient_resources_policy := IRPolicy.skip }, ⟨0, 0, 0⟩,
        ⟨1, []⟩⟩, .ok none) :=
  (C5_zero_cash_policy 10
      { TradeKitBot.start ("bot1") "TICK" with
          insufficient_resources_policy := IRPolicy.skip }
      ⟨0, 0, 0⟩ ⟨1, []⟩ 100 none none none rfl (by decide) (by decide)
      (by decide) (by norm_num) rfl).2.1 rfl

/-- C8 counterexample: a record with `entry_submit_price = 0` (a present,
non-positive price) and `stop_loss = -1` constructs successfully — the
truthiness guard `if price and price <= 0` skips the value 0, and
stop_loss/take_profit are never validated at all (models.py lines 81-85),
contradicting the claim that every present price field must be strictly
positive, including at the boundary value 0. -/
theorem C8_price_validation_counterexample :
    (mkTradeKitPosition 0 ("b") "T" .LONG 1 .BUY 0 .MARKET .PENDING
        none none none none none none none none none (some (-1)) (some 0)
        none none none).toOption.map
      (fun r => (r.entry_submit_price, r.stop_loss, r.take_profit)) =
    some ((0 : ℚ), some (-1 : ℚ), some (0 : ℚ)) := by
  have h1 : 1 ≤ "b".length ∧ "b".length ≤ 50 := by decide
  have h2 : 1 ≤ "T".length ∧ "T".length ≤ 30 := by decide
  have h3 : "T".data.all Char.isAlphanum = true := by decide
  unfold mkTradeKitPosition
  rw [if_neg (not_not_intro h1), if_neg (not_not_intro h2),
    if_neg (not_not_intro h3), if_neg (by norm_num),
    if_neg (by norm_num), if_neg (by simp [optPriceBad]),
    if_neg (by simp [optPriceBad]), if_neg (by simp [optPriceBad]),
    if_neg (by simp [triggerBad])]
  rfl

/-- C8 (amended): construction checks only the four order/fill price
fields (`entry_submit_price`, `entry_price`, `exit_submit_price`,
`exit_price`), rejecting a present value only when it is strictly
negative — the boundary value 0 passes the truthiness guard — and
`stop_loss`/`take_profit` are assigned without any validation. -/
theorem C8_price_validation_amended (now : DTime) (name ticker : String)
    (pt : PosType) (q : ℤ) (a : ActionT) (v w : ℚ)
    (hn : 1 ≤ name.length ∧ name.length ≤ 50)
    (ht : 1 ≤ ticker.length ∧ ticker.length ≤ 30)
    (hta : ticker.data.all Char.isAlphanum = true)
    (hq : 0 < q) (hv : v < 0) :
    (mkTradeKitPosition now name ticker pt q a v .MARKET .PENDING
        none none none none none none none none none none none none
        none none = .error .entrySubmitPrice) ∧
    (mkTradeKitPosition now name ticker pt q a 1 .MARKET .PENDING
        none none (some v) none none none none none none none none none
        none none = .error .entryPrice) ∧
    (mkTradeKitPosition now name ticker pt q a 1 .MARKET .PENDING
        none none none none (some v) none none none none none none none
        none none = .error .exitSubmitPrice) ∧
    (mkTradeKitPosition now name ticker pt q a 1 .MARKET .PENDING
        none none none none none none (some v) none none none none none
        none none = .error .exitPrice) ∧
    (∃ r, mkTradeKitPosition now name ticker pt q a 0 .MARKET .PENDING
        none none (some 0) none (some 0) none (some 0) none none
        (some w) (some w) none none none = .ok r ∧
      r.stop_loss = some w ∧ r.take_profit = some w ∧
      r.entry_submit_price = 0 ∧ r.entry_price = some 0) := by
  have hne := ne_of_lt hv
  have hle := le_of_lt hv
  refine ⟨?_, ?_, ?_, ?_, ?_⟩
  · unfold mkTradeKitPosition
    rw [if_neg (not_not_intro hn), if_neg (not_not_intro ht),
      if_neg (not_not_intro hta), if_neg (not_le.mpr hq),
      if_pos ⟨hne, hle⟩]
  · unfold mkTradeKitPosition
    rw [if_neg (not_not_intro hn), if_neg (not_not_intro ht),
      if_neg (not_not_intro hta), if_neg (not_le.mpr hq),
      if_neg (by norm_num), if_pos (by simp [optPriceBad, hne, hle])]
  · unfold mkTradeKitPosition
    rw [if_neg (not_not_intro hn), if_neg (not_not_intro ht),
      if_neg (not_not_intro hta), if_neg (not_le.mpr hq),
      if_neg (by norm_num), if_neg (by simp [optPriceBad]),
      if_pos (by simp [optPriceBad, hne, hle])]
  · unfold mkTradeKitPosition
    rw [if_neg (not_not_intro hn), if_neg (not_not_intro ht),
      if_neg (not_not_intro hta), if_neg (not_le.mpr hq),
      if_neg (by norm_num), if_neg (by simp [optPriceBad]),
      if_neg (by simp [optPriceBad]),
      if_pos (by simp [optPriceBad, hne, hle])]
  · unfold mkTradeKitPosition
    rw [if_neg (not_not_intro hn), if_neg (not_not_intro ht),
      if_neg (not_not_intro hta), if_neg (not_le.mpr hq),
      if_neg (by norm_num), if_neg (by simp [optPriceBad]),
      if_neg (by simp [optPriceBad]), if_neg (by simp [optPriceBad]),
      if_neg (by simp [triggerBad])]
    exact ⟨_, rfl, rfl, rfl, rfl, rfl⟩

/-- Witness for the amended C8 at v = -3, w = -7. -/
theorem C8_price_validation_amended_witness :
    (mkTradeKitPosition 0 ("b") "T" .LONG 1 .BUY (-3) .MARKET .PENDING
        none none none none none none none none none none none none
        none none = .error .entrySubmitPrice) ∧
    (∃ r, mkTradeKitPosition 0 ("b") "T" .LONG 1 .BUY 0 .MARKET .PENDING
        none none (some 0) none (some 0) none (some 0) none none
        (some (-7)) (some (-7)) none none none = .ok r ∧
      r.stop_loss = some (-7 : ℚ) ∧ r.take_profit = some (-7 : ℚ) ∧
      r.entry_submit_price = 0 ∧ r.entry_price = some 0) := by
  have h := C8_price_validation_amended 0 ("b") "T" .LONG 1 .BUY (-3) (-7)
    (by decide) (by decide) (by decide) (by norm_num) (by norm_num)
  exact ⟨h.1, h.2.2.2.2⟩

/-- C9 counterexample: a record with `status = CLOSED` and neither
`entry_price` nor `exit_price` set constructs successfully — construction
performs no cross-field check tying CLOSED to the fill prices
(models.py lines 116-118 only check membership in the status list). -/
theorem C9_closed_requires_prices_counterexample :
    (mkTradeKitPosition 0 ("b") "T" .LONG 1 .BUY 10 .MARKET .CLOSED
        none none none none none none none none none none none none
        none none).toOption.map
      (fun r => (r.status, r.entry_price, r.exit_price)) =
    some (Status.CLOSED, none, none) := by
  have h1 : 1 ≤ "b".length ∧ "b".length ≤ 50 := by decide
  have h2 : 1 ≤ "T".length ∧ "T".length ≤ 30 := by decide
  have h3 : "T".data.all Char.isAlphanum = true := by decide
  unfold mkTradeKitPosition
  rw [if_neg (not_not_intro h1), if_neg (not_not_intro h2),
    if_neg (not_not_intro h3), if_neg (by norm_num),
    if_neg (by norm_num), if_neg (by simp [optPriceBad]),
    if_neg (by simp [optPriceBad]), if_neg (by simp [optPriceBad]),
    if_neg (by simp [triggerBad])]
  rfl

/-- C9 (amended): construction validates that the status is drawn from the
closed status set but does not require a CLOSED record to carry entry or
exit fill prices: for any otherwise-valid fields, a CLOSED record with
both fill prices absent constructs successfully. -/
theorem C9_closed_no_fill_price_check (now : DTime) (name ticker : String)
    (pt : PosType) (q : ℤ) (a : ActionT) (price : ℚ)
    (hn : 1 ≤ name.length ∧ name.length ≤ 50)
    (ht : 1 ≤ ticker.length ∧ ticker.length ≤ 30)
    (hta : ticker.data.all Char.isAlphanum = true)
    (hq : 0 < q) (hp : 0 ≤ price) :
    ∃ r, mkTradeKitPosition now name ticker pt q a price .MARKET .CLOSED
        none none none none none none none none none none none none
        none none = .ok r ∧
      r.status = .CLOSED ∧ r.entry_price = none ∧ r.exit_price = none := by
  unfold mkTradeKitPosition
  rw [if_neg (not_not_intro hn), if_neg (not_not_intro ht),
    if_neg (not_not_intro hta), if_neg (not_le.mpr hq),
    if_neg (fun h => h.1 (le_antisymm h.2 hp)),
    if_neg (by simp [optPriceBad]), if_neg (by simp [optPriceBad]),
    if_neg (by simp [optPriceBad]), if_neg (by simp [triggerBad])]
  exact ⟨_, rfl, rfl, rfl, rfl⟩

/-- Witness for the amended C9 at a concrete CLOSED record. -/
theorem C9_closed_no_fill_price_check_witness :
    ∃ r, mkTradeKitPosition 0 ("b") "T" .LONG 1 .BUY 10 .MARKET .CLOSED
        none none none none none none none none none none none none
        none none = .ok r ∧
      r.status = .CLOSED ∧ r.entry_price = none ∧ r.exit_price = none :=
  C9_closed_no_fill_price_check 0 ("b") "T" .LONG 1 .BUY 10
    (by decide) (by decide) (by decide) (by norm_num) (by norm_num)

/-- A successful `update_position` only appends one update call; the id
counter is untouched. -/
theorem update_position_extend (db : TradeKitDB) (p : TradeKitPosition)
    (db' : TradeKitDB) (h : db.update_position p = .ok db') :
    db' = { db with calls := db.calls ++ [DbCall.update p] } := by
  unfold TradeKitDB.update_position at h
  cases hid : p.id with
  | none => rw [hid] at h; cases h
  | some i => rw [hid] at h; cases h; rfl

/-- The submit phase extends the store's call log without touching the id
counter. -/
theorem submit_order_to_broker_db_extend (now : DTime) (s : ExecState) :
    ∃ l, (submit_order_to_broker now s).1.db =
      { s.db with calls := s.db.calls ++ l } := by
  unfold submit_order_to_broker
  dsimp only
  split
  · exact ⟨[], by simp⟩
  · rename_i db' heq
    exact ⟨_, update_position_extend _ _ _ heq⟩

/-- The buy finalize phase extends the store's call log without touching
the id counter. -/
theorem handle_buy_execution_db_extend (now : DTime) (s : ExecState) :
    ∃ l, (handle_buy_execution now s).1.db =
      { s.db with calls := s.db.calls ++ l } := by
  unfold handle_buy_execution
  split
  · exact ⟨[], by simp⟩
  · dsimp only
    split
    · exact ⟨[], by simp⟩
    · split
      · exact ⟨[], by simp⟩
      · rename_i db' heq
        exact ⟨_, update_position_extend _ _ _ heq⟩

/-- The sell finalize phase extends the store's call log without touching
the id counter. -/
theorem handle_sell_execution_db_extend (now : DTime) (s : ExecState) :
    ∃ l, (handle_sell_execution now s).1.db =
      { s.db with calls := s.db.calls ++ l } := by
  unfold handle_sell_execution
  split
  · exact ⟨[], by simp⟩
  · dsimp only
    split
    · exact ⟨[], by simp⟩
    · split
      · exact ⟨[], by simp⟩
      · rename_i db' heq
        exact ⟨_, update_position_extend _ _ _ heq⟩

/-- The finalize phase extends the store's call log without touching the
id counter. -/
theorem finalize_db_extend (now : DTime) (s : ExecState) :
    ∃ l, (finalize_order_execution now s).1.db =
      { s.db with calls := s.db.calls ++ l } := by
  unfold finalize_order_execution
  split
  · exact handle_buy_execution_db_extend now s
  · exact handle_sell_execution_db_extend now s

/-- Models `execute_order` only ever appends to the store's call log and never
touches the id counter: the ledger persists exclusively through
`update_position`, never through `create_position`. -/
theorem execute_order_db_extend (now : DTime) (s : ExecState) :
    ∃ l, (execute_order now s).1.db =
      { s.db with calls := s.db.calls ++ l } := by
  unfold execute_order
  split
  · exact ⟨[], by simp⟩
  · split
    · rename_i s1 e heq
      obtain ⟨l1, h1⟩ := submit_order_to_broker_db_extend now s
      rw [heq] at h1
      exact ⟨l1, h1⟩
    · rename_i s1 heq
      obtain ⟨l1, h1⟩ := submit_order_to_broker_db_extend now s
      rw [heq] at h1
      split
      · rename_i s2 e2 heq2
        obtain ⟨l2, h2⟩ := finalize_db_extend now s1
        rw [heq2] at h2
        exact ⟨l1 ++ l2, by rw [h2, h1]; simp⟩
      · rename_i s2 heq2
        obtain ⟨l2, h2⟩ := finalize_db_extend now s1
        rw [heq2] at h2
        exact ⟨l1 ++ l2, by rw [h2, h1]; simp⟩

/-- Full run of `execute_order` for a BUY on a SHORT record (cover short)
with sufficient cash: submit stamps PENDING and the entry submit date
(the action is BUY), the fill debits cash at the exit submit price,
credits holdings, sets CLOSED and the exit fill fields. -/
theorem execute_buy_short_ok (now : DTime) (b : TradeKitBroker)
    (db : TradeKitDB) (pos : TradeKitPosition) (i : ℕ) (p : ℚ)
    (hst : pos.status = .PENDING ∨ pos.status = .OPEN)
    (hact : pos.action = .BUY) (hpt : pos.position_type = .SHORT)
    (hid : pos.id = some i)
    (hesp : pos.exit_submit_price = some p)
    (hcash : 0 ≤ b.cash - p * (pos.quantity : ℚ)) :
    execute_order now ⟨b, db, pos⟩ =
      (⟨{ b with
            cash := b.cash - p * (pos.quantity : ℚ)
            asset_holdings := b.asset_holdings + (pos.quantity : ℚ) },
        { db with calls := db.calls ++
            [DbCall.update { pos with
                status := Status.PENDING
                entry_submit_date := now },
             DbCall.update { pos with
                status := Status.CLOSED
                entry_submit_date := now
                exit_date := some now
                exit_price := some p }] },
        { pos with
            status := Status.CLOSED
            entry_submit_date := now
            exit_date := some now
            exit_price := some p }⟩,
       .ok pos.quantity) := by
  unfold execute_order submit_order_to_broker finalize_order_execution
    handle_buy_execution buy_exec_price TradeKitDB.update_position
  simp only [hact, hpt, hid, hesp, not_lt.mpr hcash]
  rw [if_neg (not_not_intro hst)]
  simp [not_lt.mpr hcash, hid, hesp]

/-- C7 counterexample: submitting the BUY/SHORT (cover short) leg performs
no insert — every store call of the leg is an `update_position` call, the
id counter stays at 9, and the record keeps its pre-existing id 3; the
fill succeeds (quantity 4, CLOSED at exit price 120).  This contradicts
the claim that the BUY/SHORT fill is the record's first persistence via
create, assigning the store id. -/
theorem C7_buy_short_insert_counterexample :
    (submit_order 10 120 c7_sys).2 = .ok 4 ∧
    (submit_order 10 120 c7_sys).1.db.nextId = 9 ∧
    ((submit_order 10 120 c7_sys).1.db.calls.map DbCall.isUpdate) =
      [true, true, true] ∧
    ((submit_order 10 120 c7_sys).1.bot.position.map fun p => p.id) =
      some (some 3) ∧
    ((submit_order 10 120 c7_sys).1.bot.position.map fun p => p.status) =
      some Status.CLOSED := by
  have key := execute_buy_short_ok 10 ⟨1000, 0, 0⟩
    ⟨9, [DbCall.update { c7_pos with exit_submit_price := some 120 }]⟩
    { c7_pos with exit_submit_price := some 120 } 3 120
    (Or.inr rfl) rfl rfl rfl rfl (by norm_num [c7_pos])
  have e1 : submit_order 10 120 c7_sys =
      run_execute 10
        ⟨c7_sys.bot, ⟨1000, 0, 0⟩,
          ⟨9, [DbCall.update { c7_pos with exit_submit_price := some 120 }]⟩⟩
        { c7_pos with exit_submit_price := some 120 } := rfl
  rw [e1]
  unfold run_execute
  rw [key]
  refine ⟨by norm_num [c7_pos], rfl, rfl, rfl, rfl⟩

/-- C7 (amended): the BUY/SHORT leg persists the record through
`update_position` only — never through `create_position`.  The store's id
counter is untouched across the whole leg; a record without an id fails
with MissingId (it must already be persisted); and with an id, the first
store call of the leg is the update carrying `exit_submit_price = price`. -/
theorem C7_buy_short_update_leg (now : DTime) (price : ℚ) (s : Sys)
    (pos : TradeKitPosition)
    (hpos : s.bot.position = some pos)
    (ha : pos.action = .BUY) (hpt : pos.position_type = .SHORT) :
    (submit_order now price s).1.db.nextId = s.db.nextId ∧
    (pos.id = none → (submit_order now price s).2 = .error .missingId ∧
      (submit_order now price s).1.db = s.db) ∧
    (∀ i, pos.id = some i →
      (submit_order now price s).1.db.calls.take (s.db.calls.length + 1) =
        s.db.calls ++
          [DbCall.update { pos with exit_submit_price := some price }]) := by
  unfold submit_order
  rw [hpos]
  simp only [ha, hpt]
  cases hid : pos.id with
  | none =>
    have hupd : s.db.update_position
        { pos with
            id := none
            position_type := PosType.SHORT
            action := ActionT.BUY
            exit_submit_price := some price } = .error .missingId := rfl
    rw [hupd]
    exact ⟨rfl, fun _ => ⟨rfl, rfl⟩, fun i h => by cases h⟩
  | some i =>
    have hupd : s.db.update_position
        { pos with
            id := some i
            position_type := PosType.SHORT
            action := ActionT.BUY
            exit_submit_price := some price } =
        .ok { s.db with calls := s.db.calls ++
          [DbCall.update { pos with
              id := some i
              position_type := PosType.SHORT
              action := ActionT.BUY
              exit_submit_price := some price }] } := rfl
    rw [hupd]
    unfold run_execute
    obtain ⟨l, hl⟩ := execute_order_db_extend now
      ⟨s.broker, { s.db with calls := s.db.calls ++
          [DbCall.update { pos with
              id := some i
              position_type := PosType.SHORT
              action := ActionT.BUY
              exit_submit_price := some price }] },
        { pos with
            id := some i
            position_type := PosType.SHORT
            action := ActionT.BUY
            exit_submit_price := some price }⟩
    refine ⟨?_, ?_, ?_⟩
    · dsimp only
      rw [hl]
    · intro h; cases h
    · intro j hj
      dsimp only
      rw [hl]
      dsimp only
      have hlen : (s.db.calls ++
          [DbCall.update { pos with
              id := some i
              position_type := PosType.SHORT
              action := ActionT.BUY
              exit_submit_price := some price }]).length =
          s.db.calls.length + 1 := by simp
      rw [← hlen, List.take_left]

/-- Witness for the amended C7 on the concrete covered short: the id
counter stays 9 and the first (and here only prefix) call of the leg is
the update carrying exit submit price 120. -/
theorem C7_buy_short_update_leg_witness :
    (submit_order 10 120 c7_sys).1.db.nextId = 9 ∧
    (submit_order 10 120 c7_sys).1.db.calls.take 1 =
      [DbCall.update { c7_pos with exit_submit_price := some 120 }] := by
  have h := C7_buy_short_update_leg 10 120 c7_sys c7_pos rfl rfl rfl
  exact ⟨h.1, h.2.2 3 rfl⟩

/-- Handing a terminal record to the broker refuses execution and returns
the state with the record tracked unchanged. -/
theorem run_execute_terminal (now : DTime) (s : Sys) (pos : TradeKitPosition)
    (h1 : pos.status ≠ .PENDING) (h2 : pos.status ≠ .OPEN) :
    run_execute now s pos =
      (⟨{ s.bot with position := some pos }, s.broker, s.db⟩,
       .error .invalidTransition) := by
  unfold run_execute
  rw [execute_refused_of_terminal now ⟨s.broker, s.db, pos⟩ h1 h2]

/-- A buy/sell against a tracked CANCELED or FAILED record fails with the
wrapped invalid-transition error, but only after mutating the tracked
record in place (action, observed exit date) and persisting it: via
`update_position` (with `exit_submit_price` set) when the record's
(action, type) is (BUY, SHORT) or (SELL, LONG), and via `create_position`
(a fresh row, bumping the id counter) when it is (BUY, LONG) or
(SELL, SHORT).  The broker account and the record's terminal status are
untouched. -/
theorem place_order_terminal (now : DTime) (a : ActionT) (pt' : PosType)
    (price : ℚ) (od : Option DTime) (sl tp : Option ℚ) (bot : TradeKitBot)
    (br : TradeKitBroker) (db : TradeKitDB) (pos : TradeKitPosition)
    (i : ℕ) (q : ℤ)
    (hpos : bot.position = some pos)
    (hterm : pos.status = .CANCELED ∨ pos.status = .FAILED)
    (hid : pos.id = some i)
    (hp : 0 < price)
    (hcalc : (match a with
      | .BUY => bot.calculate_buy_quantity br price
      | .SELL => bot.calculate_sell_quantity br) = .ok q)
    (hskip : ¬ (q = 0 ∧ bot.insufficient_resources_policy = .skip)) :
    (place_order now a pt' price od sl tp ⟨bot, br, db⟩).2 =
      .error (.orderPlacementFailed a .invalidTransition) ∧
    (place_order now a pt' price od sl tp ⟨bot, br, db⟩).1.broker = br ∧
    ((place_order now a pt' price od sl tp ⟨bot, br, db⟩).1.bot.position.map
      fun r => (r.action, r.observed_exit_date, r.status)) =
      some (a, od, pos.status) ∧
    ((a = .BUY ∧ pos.position_type = .SHORT) ∨
        (a = .SELL ∧ pos.position_type = .LONG) →
      (place_order now a pt' price od sl tp ⟨bot, br, db⟩).1.db =
        { db with calls := db.calls ++ [DbCall.update { pos with
            id := some i
            action := a
            observed_exit_date := od
            exit_submit_price := some price }] }) ∧
    ((a = .BUY ∧ pos.position_type = .LONG) ∨
        (a = .SELL ∧ pos.position_type = .SHORT) →
      (place_order now a pt' price od sl tp ⟨bot, br, db⟩).1.db =
        { db with
            nextId := db.nextId + 1
            calls := db.calls ++ [DbCall.create { pos with
                id := some i
                action := a
                observed_exit_date := od }] }) := by
  have h1 : pos.status ≠ .PENDING := by rcases hterm with h | h <;> simp [h]
  have h2 : pos.status ≠ .OPEN := by rcases hterm with h | h <;> simp [h]
  have hncl : pos.status ≠ .CLOSED := by rcases hterm with h | h <;> simp [h]
  cases a with
  | BUY =>
    have hcalc' : bot.calculate_buy_quantity br price = .ok q := hcalc
    cases hptv : pos.position_type with
    | LONG =>
      have key := run_execute_terminal now
        ⟨{ bot with position := some { pos with
              id := some i
              position_type := PosType.LONG
              action := ActionT.BUY
              observed_exit_date := od } }, br,
          ⟨db.nextId + 1, db.calls ++ [DbCall.create { pos with
              id := some i
              position_type := PosType.LONG
              action := ActionT.BUY
              observed_exit_date := od }]⟩⟩
        { pos with
            id := some db.nextId
            position_type := PosType.LONG
            action := ActionT.BUY
            observed_exit_date := od } h1 h2
      simp only [place_order, if_neg (not_le.mpr hp), hcalc']
      rw [if_neg hskip]
      simp only [hpos]
      rw [if_neg hncl]
      simp only [place_finish, submit_order, TradeKitDB.create_position,
        hptv, hid, key]
      simp
    | SHORT =>
      have key := run_execute_terminal now
        ⟨{ bot with position := some { pos with
              id := some i
              position_type := PosType.SHORT
              action := ActionT.BUY
              observed_exit_date := od } }, br,
          { db with calls := db.calls ++ [DbCall.update { pos with
              id := some i
              position_type := PosType.SHORT
              action := ActionT.BUY
              observed_exit_date := od
              exit_submit_price := some price }] }⟩
        { pos with
            id := some i
            position_type := PosType.SHORT
            action := ActionT.BUY
            observed_exit_date := od
            exit_submit_price := some price } h1 h2
      have hupd : TradeKitDB.update_position db { pos with
          id := some i
          position_type := PosType.SHORT
          action := ActionT.BUY
          observed_exit_date := od
          exit_submit_price := some price } =
        .ok { db with calls := db.calls ++ [DbCall.update { pos with
            id := some i
            position_type := PosType.SHORT
            action := ActionT.BUY
            observed_exit_date := od
            exit_submit_price := some price }] } := rfl
      simp only [place_order, if_neg (not_le.mpr hp), hcalc']
      rw [if_neg hskip]
      simp only [hpos]
      rw [if_neg hncl]
      simp only [place_finish, submit_order, hptv, hid, hupd, key]
      simp
  | SELL =>
    have hcalc' : bot.calculate_sell_quantity br = .ok q := hcalc
    cases hptv : pos.position_type with
    | LONG =>
      have key := run_execute_terminal now
        ⟨{ bot with position := some { pos with
              id := some i
              position_type := PosType.LONG
              action := ActionT.SELL
              observed_exit_date := od } }, br,
          { db with calls := db.calls ++ [DbCall.update { pos with
              id := some i
              position_type := PosType.LONG
              action := ActionT.SELL
              observed_exit_date := od
              exit_submit_price := some price }] }⟩
        { pos with
            id := some i
            position_type := PosType.LONG
            action := ActionT.SELL
            observed_exit_date := od
            exit_submit_price := some price } h1 h2
      have hupd : TradeKitDB.update_position db { pos with
          id := some i
          position_type := PosType.LONG
          action := ActionT.SELL
          observed_exit_date := od
          exit_submit_price := some price } =
        .ok { db with calls := db.calls ++ [DbCall.update { pos with
            id := some i
            position_type := PosType.LONG
            action := ActionT.SELL
            observed_exit_date := od
            exit_submit_price := some price }] } := rfl
      simp only [place_order, if_neg (not_le.mpr hp), hcalc']
      rw [if_neg hskip]
      simp only [hpos]
      rw [if_neg hncl]
      simp only [place_finish, submit_order, hptv, hid, hupd, key]
      simp
    | SHORT =>
      have key := run_execute_terminal now
        ⟨{ bot with position := some { pos with
              id := some i
              position_type := PosType.SHORT
              action := ActionT.SELL
              observed_exit_date := od } }, br,
          ⟨db.nextId + 1, db.calls ++ [DbCall.create { pos with
              id := some i
              position_type := PosType.SHORT
              action := ActionT.SELL
              observed_exit_date := od }]⟩⟩
        { pos with
            id := some db.nextId
            position_type := PosType.SHORT
            action := ActionT.SELL
            observed_exit_date := od } h1 h2
      simp only [place_order, if_neg (not_le.mpr hp), hcalc']
      rw [if_neg hskip]
      simp only [hpos]
      rw [if_neg hncl]
      simp only [place_finish, submit_order, TradeKitDB.create_position,
        hptv, hid, key]
      simp

/-- C10 counterexample: a BUY on a tracked CANCELED LONG record does fail
with the wrapped invalid-transition error and is not a no-op, but the
mutated record is persisted via `create_position` — a fresh row, bumping
the id counter to 9 — not via `update_position` as the claim states. -/
theorem C10_terminal_mutation_counterexample :
    c10_run.2 = .error (.orderPlacementFailed .BUY .invalidTransition) ∧
    c10_run.1.db.calls = [DbCall.create { c10_pos with
        id := some 7
        action := ActionT.BUY
        observed_exit_date := some 99 }] ∧
    c10_run.1.db.nextId = 9 ∧
    (c10_run.1.db.calls.map DbCall.isUpdate) = [false] := by
  have hcalc : ({ TradeKitBot.start ("bot1") "TICK" with
      position := some c10_pos } : TradeKitBot).calculate_buy_quantity
      ⟨1000, 0, 0⟩ 100 = .ok 6 := by
    norm_num [TradeKitBot.calculate_buy_quantity,
      TradeKitBot.enforce_quantity_policy, pyInt, TradeKitBot.start,
      AggLevels.get]
  have h := place_order_terminal 30 .BUY .LONG 100 (some 99) none none
    { TradeKitBot.start ("bot1") "TICK" with position := some c10_pos }
    ⟨1000, 0, 0⟩ ⟨8, []⟩ c10_pos 7 6 rfl (Or.inl rfl) rfl (by norm_num)
    hcalc (by simp [TradeKitBot.start])
  have hdb := h.2.2.2.2 (Or.inl ⟨rfl, rfl⟩)
  have e : c10_run = place_order 30 .BUY .LONG 100 (some 99) none none
      ⟨{ TradeKitBot.start ("bot1") "TICK" with position := some c10_pos },
        ⟨1000, 0, 0⟩, ⟨8, []⟩⟩ := rfl
  refine ⟨?_, ?_, ?_, ?_⟩
  · rw [e]; exact h.1
  · rw [e, hdb]; rfl
  · rw [e, hdb]
  · rw [e, hdb]; rfl

/-- C10 (amended): when the tracked record's status is CANCELED or FAILED,
every buy/sell call fails with the invalid-transition error wrapped into
the placement error but is not a no-op: `place_order` first mutates the
tracked terminal record in place (action, observed exit date) and the
mutated record is persisted before execution is refused — via
`update_position` (which also sets `exit_submit_price`) when the record's
(action, type) is (BUY, SHORT) or (SELL, LONG), and via `create_position`
(a fresh row, assigning a new id) when it is (BUY, LONG) or
(SELL, SHORT).  The broker account and the record's terminal status are
unchanged. -/
theorem C10_terminal_position_mutation (now : DTime) (a : ActionT)
    (pt' : PosType) (price : ℚ) (od : Option DTime) (sl tp : Option ℚ)
    (bot : TradeKitBot) (br : TradeKitBroker) (db : TradeKitDB)
    (pos : TradeKitPosition) (i : ℕ) (q : ℤ)
    (hpos : bot.position = some pos)
    (hterm : pos.status = .CANCELED ∨ pos.status = .FAILED)
    (hid : pos.id = some i)
    (hp : 0 < price)
    (hcalc : (match a with
      | .BUY => bot.calculate_buy_quantity br price
      | .SELL => bot.calculate_sell_quantity br) = .ok q)
    (hskip : ¬ (q = 0 ∧ bot.insufficient_resources_policy = .skip)) :
    (place_order now a pt' price od sl tp ⟨bot, br, db⟩).2 =
      .error (.orderPlacementFailed a .invalidTransition) ∧
    (place_order now a pt' price od sl tp ⟨bot, br, db⟩).1.broker = br ∧
    ((place_order now a pt' price od sl tp ⟨bot, br, db⟩).1.bot.position.map
      fun r => (r.action, r.observed_exit_date, r.status)) =
      some (a, od, pos.status) ∧
    ((a = .BUY ∧ pos.position_type = .SHORT) ∨
        (a = .SELL ∧ pos.position_type = .LONG) →
      (place_order now a pt' price od sl tp ⟨bot, br, db⟩).1.db =
        { db with calls := db.calls ++ [DbCall.update { pos with
            id := some i
            action := a
            observed_exit_date := od
            exit_submit_price := some price }] }) ∧
    ((a = .BUY ∧ pos.position_type = .LONG) ∨
        (a = .SELL ∧ pos.position_type = .SHORT) →
      (place_order now a pt' price od sl tp ⟨bot, br, db⟩).1.db =
        { db with
            nextId := db.nextId + 1
            calls := db.calls ++ [DbCall.create { pos with
                id := some i
                action := a
                observed_exit_date := od }] }) :=
  place_order_terminal now a pt' price od sl tp bot br db pos i q hpos
    hterm hid hp hcalc hskip

/-- Witness for the amended C10: a SELL on a tracked FAILED LONG record
fails with the wrapped invalid-transition error, the tracked record is
mutated (action SELL, observed exit date 99, status still FAILED), and the
store received the update carrying exit submit price 110. -/
theorem C10_terminal_position_mutation_witness :
    (place_order 30 .SELL .LONG 110 (some 99) none none
        ⟨{ TradeKitBot.start ("bot1") "TICK" with position := some c10b_pos },
          ⟨1000, 10, 0⟩, ⟨8, []⟩⟩).2 =
      .error (.orderPlacementFailed .SELL .invalidTransition) ∧
    ((place_order 30 .SELL .LONG 110 (some 99) none none
        ⟨{ TradeKitBot.start ("bot1") "TICK" with position := some c10b_pos },
          ⟨1000, 10, 0⟩, ⟨8, []⟩⟩).1.bot.position.map
      fun r => (r.action, r.observed_exit_date, r.status)) =
      some (ActionT.SELL, some 99, Status.FAILED) ∧
    (place_order 30 .SELL .LONG 110 (some 99) none none
        ⟨{ TradeKitBot.start ("bot1") "TICK" with position := some c10b_pos },
          ⟨1000, 10, 0⟩, ⟨8, []⟩⟩).1.db =
      { nextId := 8, calls := [DbCall.update { c10b_pos with
          id := some 7
          action := ActionT.SELL
          observed_exit_date := some 99
          exit_submit_price := some 110 }] } := by
  have hcalc : ({ TradeKitBot.start ("bot1") "TICK" with
      position := some c10b_pos } : TradeKitBot).calculate_sell_quantity
      ⟨1000, 10, 0⟩ = .ok 5 := by
    norm_num [TradeKitBot.calculate_sell_quantity,
      TradeKitBot.enforce_quantity_policy, pyInt, TradeKitBot.start,
      AggLevels.get, c10b_pos]
  have h := C10_terminal_position_mutation 30 .SELL .LONG 110 (some 99)
    none none
    { TradeKitBot.start ("bot1") "TICK" with position := some c10b_pos }
    ⟨1000, 10, 0⟩ ⟨8, []⟩ c10b_pos 7 5 rfl (Or.inr rfl) rfl (by norm_num)
    hcalc (by simp [TradeKitBot.start])
  have hdb := h.2.2.2.1 (Or.inr ⟨rfl, rfl⟩)
  refine ⟨h.1, h.2.2.1, ?_⟩
  rw [hdb]
  rfl

/-- The submit phase does not touch the broker account and preserves the
record's sizing and price fields. -/
theorem submit_order_to_broker_shape (now : DTime) (s : ExecState) :
    (submit_order_to_broker now s).1.broker = s.broker ∧
    (submit_order_to_broker now s).1.pos.quantity = s.pos.quantity ∧
    (submit_order_to_broker now s).1.pos.entry_submit_price =
      s.pos.entry_submit_price ∧
    (submit_order_to_broker now s).1.pos.exit_submit_price =
      s.pos.exit_submit_price ∧
    (submit_order_to_broker now s).1.pos.position_type =
      s.pos.position_type ∧
    (submit_order_to_broker now s).1.pos.action = s.pos.action := by
  unfold submit_order_to_broker
  dsimp only
  cases hact : s.pos.action <;> dsimp only <;> split <;> simp

/-- A successful buy finalize leaves cash and holdings nonnegative when
they were nonnegative and the record's quantity is nonnegative. -/
theorem handle_buy_execution_nonneg (now : DTime) (s s' : ExecState)
    (hq : 0 ≤ s.pos.quantity) (hh : 0 ≤ s.broker.asset_holdings)
    (h : handle_buy_execution now s = (s', none)) :
    0 ≤ s'.broker.cash ∧ 0 ≤ s'.broker.asset_holdings := by
  unfold handle_buy_execution at h
  rcases hbp : buy_exec_price s.pos with _ | p <;> rw [hbp] at h
  · simp at h
  · dsimp only at h
    by_cases hlt : s.broker.cash - p * (s.pos.quantity : ℚ) < 0
    · rw [if_pos hlt] at h
      simp at h
    · rw [if_neg hlt] at h
      split at h
      · split at h <;> simp at h
      · split at h <;>
          first
            | (subst h
               refine ⟨by simpa using not_lt.mp hlt, ?_⟩
               have hq2 : (0 : ℚ) ≤ (s.pos.quantity : ℚ) := by exact_mod_cast hq
               simpa using add_nonneg hh hq2)
            | (simp only [Prod.mk.injEq] at h
               obtain ⟨h1, -⟩ := h
               subst h1
               refine ⟨by simpa using not_lt.mp hlt, ?_⟩
               have hq2 : (0 : ℚ) ≤ (s.pos.quantity : ℚ) := by exact_mod_cast hq
               simpa using add_nonneg hh hq2)

/-- A successful sell finalize leaves cash and holdings nonnegative when
they were and the record's quantity and prices are nonnegative. -/
theorem handle_sell_execution_nonneg (now : DTime) (s s' : ExecState)
    (hq : 0 ≤ s.pos.quantity)
    (hesp : 0 ≤ s.pos.entry_submit_price)
    (hxsp : ∀ v, s.pos.exit_submit_price = some v → 0 ≤ v)
    (hc : 0 ≤ s.broker.cash)
    (h : handle_sell_execution now s = (s', none)) :
    0 ≤ s'.broker.cash ∧ 0 ≤ s'.broker.asset_holdings := by
  have hq' : (0 : ℚ) ≤ (s.pos.quantity : ℚ) := by exact_mod_cast hq
  unfold handle_sell_execution at h
  have hp : ∀ p, sell_exec_price s.pos = some p → 0 ≤ p := by
    intro p hsp
    unfold sell_exec_price at hsp
    split at hsp
    · exact hxsp p hsp
    · cases hsp; exact hesp
  rcases hbp : sell_exec_price s.pos with _ | p <;> rw [hbp] at h
  · simp at h
  · dsimp only at h
    by_cases hlt : s.broker.asset_holdings - (s.pos.quantity : ℚ) < 0
    · rw [if_pos hlt] at h
      simp at h
    · rw [if_neg hlt] at h
      split at h
      · split at h <;> simp at h
      · split at h <;>
          first
            | (subst h
               refine ⟨?_, by simpa using not_lt.mp hlt⟩
               have hm := mul_nonneg (hp p hbp) hq'
               simpa using add_nonneg hc hm)
            | (simp only [Prod.mk.injEq] at h
               obtain ⟨h1, -⟩ := h
               subst h1
               refine ⟨?_, by simpa using not_lt.mp hlt⟩
               have hm := mul_nonneg (hp p hbp) hq'
               simpa using add_nonneg hc hm)

/-- A successful execution leaves cash and holdings nonnegative, given a
well-formed record and nonnegative starting account. -/
theorem execute_order_nonneg (now : DTime) (s s' : ExecState) (k : ℤ)
    (hw : posWellFormed s.pos) (hc : 0 ≤ s.broker.cash)
    (hh : 0 ≤ s.broker.asset_holdings)
    (h : execute_order now s = (s', .ok k)) :
    0 ≤ s'.broker.cash ∧ 0 ≤ s'.broker.asset_holdings := by
  unfold execute_order at h
  split at h
  · simp at h
  · rcases hsub : submit_order_to_broker now s with ⟨s1, e1⟩
    rw [hsub] at h
    cases e1 with
    | some e => simp at h
    | none =>
      dsimp only at h
      rcases hfin : finalize_order_execution now s1 with ⟨s2, e2⟩
      rw [hfin] at h
      cases e2 with
      | some e => simp at h
      | none =>
        dsimp only at h
        have hs' : s2 = s' := congrArg Prod.fst h
        rw [← hs']
        have hshape := submit_order_to_broker_shape now s
        rw [hsub] at hshape
        obtain ⟨hb, hq, hesp, hxsp, hpt, hact⟩ := hshape
        unfold finalize_order_execution at hfin
        cases hactv : s1.pos.action with
        | BUY =>
          rw [hactv] at hfin
          dsimp only at hfin
          exact handle_buy_execution_nonneg now s1 s2
            (by rw [hq]; exact hw.1) (by rw [hb]; exact hh) hfin
        | SELL =>
          rw [hactv] at hfin
          dsimp only at hfin
          exact handle_sell_execution_nonneg now s1 s2
            (by rw [hq]; exact hw.1) (by rw [hesp]; exact hw.2.1)
            (by rw [hxsp]; exact hw.2.2) (by rw [hb]; exact hc) hfin

/-- One successful ledger operation preserves nonnegativity. -/
theorem applyLedgerOp_nonneg (b : TradeKitBroker) (db : TradeKitDB)
    (op : LedgerOp) (b' : TradeKitBroker) (db' : TradeKitDB)
    (hop : opWellFormed op) (hc : 0 ≤ b.cash) (hh : 0 ≤ b.asset_holdings)
    (h : applyLedgerOp b db op = .ok (b', db')) :
    0 ≤ b'.cash ∧ 0 ≤ b'.asset_holdings := by
  cases op with
  | deposit a =>
    unfold applyLedgerOp TradeKitBroker.deposit at h
    dsimp only at h
    by_cases ha : a < 0
    · rw [if_pos ha] at h; simp [Except.map] at h
    · rw [if_neg ha] at h
      simp only [Except.map] at h
      injection h with h0
      injection h0 with h1 h2
      rw [← h1]
      exact ⟨by simpa using add_nonneg hc (not_lt.mp ha), by simpa using hh⟩
  | deposit_assets a =>
    unfold applyLedgerOp TradeKitBroker.deposit_assets at h
    dsimp only at h
    by_cases ha : a < 0
    · rw [if_pos ha] at h; simp [Except.map] at h
    · rw [if_neg ha] at h
      simp only [Except.map] at h
      injection h with h0
      injection h0 with h1 h2
      rw [← h1]
      exact ⟨by simpa using hc, by simpa using add_nonneg hh (not_lt.mp ha)⟩
  | execute now pos =>
    unfold applyLedgerOp at h
    dsimp only at h
    rcases hex : execute_order now ⟨b, db, pos⟩ with ⟨s1, r⟩
    rw [hex] at h
    cases r with
    | error e => simp at h
    | ok k =>
      dsimp only at h
      injection h with h0
      injection h0 with h1 h2
      rw [← h1]
      exact execute_order_nonneg now ⟨b, db, pos⟩ s1 k hop hc hh hex

/-- Running any all-successful sequence from a nonnegative account keeps
cash and holdings nonnegative. -/
theorem runLedgerOps_nonneg (ops : List LedgerOp) :
    ∀ (b0 : TradeKitBroker) (db0 : TradeKitDB), 0 ≤ b0.cash →
      0 ≤ b0.asset_holdings → (∀ op ∈ ops, opWellFormed op) →
      ∀ (b : TradeKitBroker) (db' : TradeKitDB),
        runLedgerOps (b0, db0) ops = .ok (b, db') →
        0 ≤ b.cash ∧ 0 ≤ b.asset_holdings := by
  induction ops with
  | nil =>
    intro b0 db0 hc hh _ b db' h
    unfold runLedgerOps at h
    injection h with h0
    injection h0 with h1 h2
    rw [← h1]
    exact ⟨hc, hh⟩
  | cons op rest ih =>
    intro b0 db0 hc hh hops b db' h
    unfold runLedgerOps at h
    dsimp only at h
    rcases happ : applyLedgerOp b0 db0 op with e | ⟨b1, db1⟩ <;>
      rw [happ] at h <;> dsimp only at h
    · simp at h
    · have step := applyLedgerOp_nonneg b0 db0 op b1 db1
        (hops op (List.mem_cons_self op rest)) hc hh happ
      exact ih b1 db1 step.1 step.2
        (fun op' hmem => hops op' (List.mem_cons_of_mem _ hmem)) b db' h

/-- C4: starting from construction (cash 0, holdings 0), after every
sequence of successful ledger operations — deposits, asset deposits and
order executions on records satisfying the constructor's numeric
invariants — cash and asset holdings are nonnegative.  Because the
statement quantifies over all such sequences, it covers the state after
each intermediate operation as well. -/
theorem C4_ledger_nonnegative (ops : List LedgerOp) (db0 : TradeKitDB)
    (hops : ∀ op ∈ ops, opWellFormed op) (b : TradeKitBroker)
    (db' : TradeKitDB)
    (h : runLedgerOps (TradeKitBroker.start, db0) ops = .ok (b, db')) :
    0 ≤ b.cash ∧ 0 ≤ b.asset_holdings :=
  runLedgerOps_nonneg ops TradeKitBroker.start db0 le_rfl le_rfl hops b db' h

/-- Witness for C4: deposit 1000 then execute the PENDING BUY/LONG record
`basePos` (quantity 5 at price 100); the run succeeds and the final
account is nonnegative. -/
theorem C4_ledger_nonnegative_witness :
    ∃ (b : TradeKitBroker) (db' : TradeKitDB),
      runLedgerOps (TradeKitBroker.start, ⟨2, []⟩)
        [LedgerOp.deposit 1000, LedgerOp.execute 5 basePos] = .ok (b, db') ∧
      0 ≤ b.cash ∧ 0 ≤ b.asset_holdings := by
  have hdep : TradeKitBroker.start.deposit 1000 = .ok ⟨0 + 1000, 0, 0⟩ := by
    unfold TradeKitBroker.deposit TradeKitBroker.start
    rw [if_neg (by norm_num)]
  have apply1 : applyLedgerOp TradeKitBroker.start ⟨2, []⟩
      (LedgerOp.deposit 1000) = .ok (⟨0 + 1000, 0, 0⟩, ⟨2, []⟩) := by
    unfold applyLedgerOp
    dsimp only
    rw [hdep]
    rfl
  have hexec := execute_buy_long_ok 5 ⟨0 + 1000, 0, 0⟩ ⟨2, []⟩ basePos 1
    (Or.inl rfl) rfl rfl rfl (by norm_num [basePos])
  have apply2 : applyLedgerOp ⟨0 + 1000, 0, 0⟩ ⟨2, []⟩
      (LedgerOp.execute 5 basePos) =
      .ok (⟨0 + 1000 - 100 * 5, 0 + 5, 0⟩,
        ⟨2, [DbCall.update { basePos with
              status := Status.PENDING
              entry_submit_date := 5 },
            DbCall.update { basePos with
              status := Status.OPEN
              entry_submit_date := 5
              entry_date := some 5
              entry_price := some 100 }]⟩) := by
    unfold applyLedgerOp
    dsimp only
    rw [hexec]
    norm_num [basePos]
  have hrun : runLedgerOps (TradeKitBroker.start, ⟨2, []⟩)
      [LedgerOp.deposit 1000, LedgerOp.execute 5 basePos] =
      .ok (⟨0 + 1000 - 100 * 5, 0 + 5, 0⟩,
        ⟨2, [DbCall.update { basePos with
              status := Status.PENDING
              entry_submit_date := 5 },
            DbCall.update { basePos with
              status := Status.OPEN
              entry_submit_date := 5
              entry_date := some 5
              entry_price := some 100 }]⟩) := by
    simp only [runLedgerOps, apply1, apply2]
  refine ⟨_, _, hrun, ?_⟩
  exact C4_ledger_nonnegative
    [LedgerOp.deposit 1000, LedgerOp.execute 5 basePos] ⟨2, []⟩
    (by
      intro op hop
      cases hop with
      | head => trivial
      | tail _ h2 =>
        cases h2 with
        | head =>
          refine ⟨by norm_num [basePos], by norm_num [basePos], ?_⟩
          intro v hv
          simp [basePos] at hv
        | tail _ h3 => cases h3)
    _ _ hrun

end TradeKit
